import Mathlib

/-!
Verification development for the Donphan object-relational mapping layer
(`donphan/_selectable.py`, `_join.py`, `_table.py`, `_insertable.py`,
`_cache.py`, `_sqltype.py`, `_column.py`, `_creatable.py`, `_consts.py`).

The Python sources are shallowly embedded: dictionaries become ordered
association lists (insertion order preserved, as in CPython), raised
exceptions become `Except PyErr`, and database connections become explicit
event traces.  Every definition in this file is translated from the source
files named above; deviations (such as treating the random alias generator
as an explicit argument) are noted at the definition they affect.
-/

namespace Donphan

/-- A Python runtime value as it appears in query keyword arguments:
`None`, an integer, or a string. -/
inductive Val where
  | vnone
  | vint (n : Int)
  | vstr (s : String)
deriving DecidableEq

/-- Python `value is None` (`None` is a singleton, so the identity test is
an equality test on this model). -/
def Val.isNone : Val → Bool
  | .vnone => true
  | _ => false

/-- A raised Python exception: the exception class name and its message.
`donphan` raises `NameError`, `ValueError`, `KeyError`, `IndexError` and
`NotImplementedError`; all are represented uniformly. -/
structure PyErr where
  cls : String
  msg : String
deriving DecidableEq

/-- Python `s.startswith(pre)`. -/
def pyStartsWith (s pre : String) : Bool := pre.data.isPrefixOf s.data

/-- Python `s.endswith(suf)`. -/
def pyEndsWith (s suf : String) : Bool := suf.data.isSuffixOf s.data

/-- Helper for substring containment: does `sub` occur contiguously in the
second argument? -/
def containsAux (sub : List Char) : List Char → Bool
  | [] => sub.isEmpty
  | c :: rest => sub.isPrefixOf (c :: rest) || containsAux sub rest

/-- Python `sub in s` (substring containment). -/
def pyContains (s sub : String) : Bool := containsAux sub.data s.data

/-- Python `s[n:]`. -/
def pyDrop (s : String) (n : Nat) : String := ⟨s.data.drop n⟩

/-- `donphan.utils.query_builder`: joins the builder tokens with single
spaces to give the final SQL text. -/
def strCat (tokens : List String) : String := String.intercalate " " tokens

/-- The decimal digit character for `n < 10`. -/
def digitChar (n : Nat) : Char := Char.ofNat (48 + n)

/-- Decimal digit list of a natural number; fuel-based to keep the
recursion structural (the callers pass `n + 1` fuel, always enough). -/
def natStrAux : Nat → Nat → List Char
  | 0, _ => []
  | fuel + 1, n =>
    if n < 10 then [digitChar n]
    else natStrAux fuel (n / 10) ++ [digitChar (n % 10)]

/-- The decimal rendering of a natural number, as produced by the format
interpolations of the query builders. -/
def natStr (n : Nat) : String := ⟨natStrAux (n + 1) n⟩

/-- Helper for Python `s.rsplit(sep, 1)`: splits at the rightmost occurrence
of `sep`, returning the parts before and after it; `none` when `sep` does
not occur. -/
def rsplitAux (sep : List Char) : List Char → Option (List Char × List Char)
  | [] => none
  | c :: rest =>
    match rsplitAux sep rest with
    | some (pre, post) => some (c :: pre, post)
    | none =>
      if sep.isPrefixOf (c :: rest) then some ([], (c :: rest).drop sep.length)
      else none

/-- Python `s.rsplit(sep, 1)` restricted to the case the callers use
(unpacking into exactly two names, which presupposes one occurrence). -/
def pyRsplitOnce (s sep : String) : Option (String × String) :=
  (rsplitAux sep.data s.data).map (fun p => (⟨p.1⟩, ⟨p.2⟩))

/-- `donphan._consts.OPERATORS`, in declaration order. -/
def OPERATORS : List (String × String) :=
  [("eq", "="), ("lt", "<"), ("le", "<="), ("ne", "<>"), ("ge", ">="),
   ("gt", ">"), ("in", "_IN"), ("like", "LIKE"), ("ilike", "ILIKE")]

/-- `donphan._consts.NULL_OPERATORS`. -/
def NULL_OPERATORS : List (String × String) :=
  [("eq", "_NULL_EQ"), ("ne", "_NULL_NE")]

/-- Dictionary lookup on an ordered association list (Python `d[k]` /
`k in d`). -/
def lookupStr (table : List (String × String)) (key : String) : Option String :=
  (table.find? (fun p => p.1 == key)).map (fun p => p.2)

/-- The `for key in OPERATORS:` loop inside
`Selectable._build_where_clause`: repeatedly strips a trailing
`__<op>` suffix, resolving the operator symbol, raising `NameError` for a
`None` value with a non-null-capable operator (or, unreachably for the
fixed tables, an unknown operator). -/
def opSuffixFold (valueIsNone : Bool) :
    List (String × String) → String → String → Except PyErr (String × String)
  | [], name, operator => .ok (name, operator)
  | (key, _) :: restKeys, name, operator =>
    if pyEndsWith name ("__" ++ key) then
      match pyRsplitOnce name "__" with
      | some (newName, opKey) =>
        if valueIsNone then
          match lookupStr NULL_OPERATORS opKey with
          | some op => opSuffixFold valueIsNone restKeys newName op
          | none => .error ⟨"NameError", "Unknown null operator " ++ opKey ++ "."⟩
        else
          match lookupStr OPERATORS opKey with
          | some op => opSuffixFold valueIsNone restKeys newName op
          | none => .error ⟨"NameError", "Unknown operator " ++ opKey ++ "."⟩
      | none => opSuffixFold valueIsNone restKeys name operator
    else opSuffixFold valueIsNone restKeys name operator

/-- One iteration of the `for name, value in values.items():` loop of
`Selectable._build_where_clause`: returns the tokens this clause appends
and the updated positional-parameter counter.  `cols` is
`cls._columns_dict` as an ordered name-to-SQL-type association list,
`tname` is `cls._name`. -/
def whereStep (tname : String) (cols : List (String × String)) (name0 : String)
    (value : Val) (i : Nat) (first : Bool) : Except PyErr (List String × Nat) := do
  let isOrName ←
    if pyStartsWith name0 "or_" then
      if first then
        Except.error ⟨"NameError", "Query cannot accept OR as first clause."⟩
      else Except.ok (true, pyDrop name0 3)
    else Except.ok (false, name0)
  let sepTokens : List String :=
    if first then [] else [if isOrName.1 then "OR" else "AND"]
  let operator0 : String := if value.isNone then "_NULL_EQ" else "="
  let nameOp ← opSuffixFold value.isNone OPERATORS isOrName.2 operator0
  let name := nameOp.1
  let operator := nameOp.2
  match cols.find? (fun p => p.1 == name) with
  | none =>
    Except.error ⟨"NameError",
      "Unknown column " ++ name ++ " in selectable " ++ tname ++ "."⟩
  | some col =>
    let mainTokens : List String × Nat :=
      if operator = "_IN" then
        ([name, "=", "any($" ++ natStr i ++ "::" ++ col.2 ++ "[])"], i + 1)
      else if operator = "_NULL_EQ" then ([name, "IS NULL"], i)
      else if operator = "_NULL_NE" then ([name, "IS NOT NULL"], i)
      else ([name, operator, "$" ++ natStr i], i + 1)
    let closeTokens : List String := if first then [] else [")"]
    Except.ok (sepTokens ++ mainTokens.1 ++ closeTokens, mainTokens.2)

/-- The whole keyword loop of `Selectable._build_where_clause`, threading
the parameter counter `i` and the `first` flag. -/
def whereLoop (tname : String) (cols : List (String × String)) :
    List (String × Val) → Nat → Bool → Except PyErr (List String)
  | [], _, _ => .ok []
  | (name, value) :: rest, i, first => do
    let step ← whereStep tname cols name value i first
    let restTokens ← whereLoop tname cols rest step.2 false
    .ok (step.1 ++ restTokens)

/-- `Selectable._build_where_clause` before the final space-join: the
grouping-parenthesis prefix followed by the clause tokens. -/
def buildWhereTokens (tname : String) (cols : List (String × String))
    (values : List (String × Val)) : Except PyErr (List String) := do
  let preTokens : List String :=
    if values.length > 1 then [String.mk (List.replicate (values.length - 1) '(')]
    else []
  let body ← whereLoop tname cols values 1 true
  .ok (preTokens ++ body)

/-- `Selectable._build_where_clause` (with the `query_builder` join). -/
def buildWhereClause (tname : String) (cols : List (String × String))
    (values : List (String × Val)) : Except PyErr String :=
  (buildWhereTokens tname cols values).map strCat

/-- The positional parameters that `Selectable.fetch`, `fetch_row` and
`Insertable.delete` pass alongside the built WHERE clause:
`*filter(lambda v: v is not None, values.values())`. -/
def fetchArgs (values : List (String × Val)) : List Val :=
  (values.map (fun p => p.2)).filter (fun v => !v.isNone)

/-- Number of `$` characters in a token (each positional placeholder
contributes exactly one). -/
def tokenDollars (t : String) : Nat := t.data.count '$'

/-- Number of `$` characters across a token list. -/
def dollarCount (tokens : List String) : Nat := (tokens.map tokenDollars).sum

/-- The token list mentions positional placeholder `$j`: either as the
parameter token itself or inside the array cast the `in` operator
renders. -/
def mentionsPlaceholder (tokens : List String) (j : Nat) : Prop :=
  ("$" ++ natStr j) ∈ tokens
  ∨ ∃ colTy : String, ("any($" ++ natStr j ++ "::" ++ colTy ++ "[])") ∈ tokens

/-- The 1-based placeholder index of the keyword at position `p`: one more
than the number of earlier keys with non-`None` values. -/
def placeholderIndex (values : List (String × Val)) (p : Nat) : Nat :=
  1 + ((values.take p).filter (fun q => !q.2.isNone)).length

/-- `donphan._column.Column`: the per-field descriptor, with its resolved
SQL type name (`sql_type.sql_type`), the constraint flags, the rendered
default (`str(self.default)`, `none` for the MISSING sentinel), the
foreign-key target as a (table name, column name) pair, and the owning
table's identity (`none` when the `table` attribute is unset). -/
structure Col where
  name : String
  sqlType : String
  primaryKey : Bool := false
  index : Bool := false
  nullable : Bool := true
  unique : Bool := false
  cascade : Bool := false
  default : Option String := none
  references : Option (String × String) := none
  table : Option Nat := none
deriving DecidableEq

/-- `Column._query`: renders the column's DDL clause. -/
def colQuery (c : Col) : String :=
  strCat ([c.name, c.sqlType]
    ++ (if !c.nullable then ["NOT NULL"] else [])
    ++ (match c.default with
        | some d => ["DEFAULT (", d, ")"]
        | none => [])
    ++ (match c.references with
        | some r =>
          ["REFERENCES", r.1, "(", r.2, ")"]
            ++ (if c.cascade then ["ON DELETE CASCADE ON UPDATE CASCADE"] else [])
        | none => []))

/-- `Column._copy`: copies every constructor field plus name and SQL type;
the copy has no `table` attribute. -/
def colCopy (c : Col) : Col := { c with table := none }

/-- `Table._query_create` before the `query_builder` join.  `cols` is
`cls._columns` in declaration order; `cls._primary_keys` is the sublist of
columns whose `primary_key` flag is set, in declaration order, exactly as
`Insertable._setup_column` accumulates it.  `builder.pop(-1)` is
`List.dropLast`. -/
def queryCreateTokens (tname : String) (cols : List Col) (ifNotExists : Bool) :
    List String :=
  let b0 := ["CREATE TABLE"] ++ (if ifNotExists then ["IF NOT EXISTS"] else [])
    ++ [tname, "("]
  let b1 := b0 ++ (cols.map (fun c => [colQuery c, ","])).flatten
  let uniqueColumns := cols.filter (fun c => c.unique)
  let b2 :=
    if uniqueColumns.isEmpty then b1
    else b1 ++ ["UNIQUE ("]
      ++ ((uniqueColumns.map (fun c => [c.name, ","])).flatten).dropLast
      ++ [")", ","]
  let primaryKeys := cols.filter (fun c => c.primaryKey)
  let b3 :=
    if primaryKeys.isEmpty then b2.dropLast
    else b2 ++ ["PRIMARY KEY ("]
      ++ ((primaryKeys.map (fun c => [c.name, ","])).flatten).dropLast
      ++ [")"]
  b3 ++ [")"]

/-- `Table._query_create` (joined). -/
def queryCreate (tname : String) (cols : List Col) (ifNotExists : Bool) : String :=
  strCat (queryCreateTokens tname cols ifNotExists)

/-- Spec-side shape of the UNIQUE clause, for comparison with
`queryCreateTokens`: the uniquely-constrained columns in declaration
order, absent when there are none.  (The specification says
"non-primary"; the comparison theorem settles whether the code excludes
primary-key columns.) -/
def uniqueClauseSpec (cols : List Col) : List String :=
  let uniq := cols.filter (fun c => c.unique)
  if uniq.isEmpty then []
  else ["UNIQUE ("] ++ List.intersperse "," (uniq.map (fun c => c.name)) ++ [")"]

/-- Spec-side shape of the PRIMARY KEY clause: the columns flagged
`primary_key` in declaration order, absent when there are none. -/
def primaryKeyClauseSpec (cols : List Col) : List String :=
  let pks := cols.filter (fun c => c.primaryKey)
  if pks.isEmpty then []
  else ["PRIMARY KEY ("] ++ List.intersperse "," (pks.map (fun c => c.name)) ++ [")"]

/-- Spec-side shape of the whole CREATE TABLE token list: header, column
clauses, then the UNIQUE and PRIMARY KEY clauses with the comma
bookkeeping the builder's `pop` calls produce. -/
def createTokensSpec (tname : String) (cols : List Col) (ifNotExists : Bool) :
    List String :=
  let colsBody := (cols.map (fun c => [colQuery c, ","])).flatten
  let uniqClause := uniqueClauseSpec cols
  let pkClause := primaryKeyClauseSpec cols
  ["CREATE TABLE"] ++ (if ifNotExists then ["IF NOT EXISTS"] else []) ++ [tname, "("]
    ++ (if uniqClause.isEmpty && pkClause.isEmpty then colsBody.dropLast else colsBody)
    ++ uniqClause
    ++ (if !uniqClause.isEmpty && !pkClause.isEmpty then [","] else [])
    ++ pkClause
    ++ [")"]

/-- `Table._query_drop_column` (joined). -/
def dropColumnQ (tname : String) (c : Col) : String :=
  strCat ["ALTER TABLE", tname, "DROP COLUMN", c.name]

/-- `Table._query_add_column` (joined). -/
def addColumnQ (tname : String) (c : Col) : String :=
  strCat ["ALTER TABLE", tname, "ADD COLUMN", colQuery c]

/-- `Table.drop_column`: checks the column belongs to this table (identified
by `selfId`), executes the DROP COLUMN statement, and deletes the column's
`table` attribute. -/
def dropColumn (selfId : Nat) (tname : String) (c : Col) :
    Except PyErr (String × Col) :=
  if c.table = some selfId then .ok (dropColumnQ tname c, { c with table := none })
  else .error ⟨"ValueError", "Column does not belong to this table."⟩

/-- `Table.add_column`: checks the column is not bound to a table and not
already present, records it in `cls._columns_dict`, executes the ADD COLUMN
statement, and binds the column to this table. -/
def addColumn (selfId : Nat) (tname : String) (dict : List Col) (c : Col) :
    Except PyErr (List Col × String) :=
  if c.table.isSome then
    .error ⟨"ValueError", "Column " ++ c.name ++ " already belongs to another table"⟩
  else if (dict.map (fun x => x.name)).contains c.name then
    .error ⟨"ValueError", "Column " ++ c.name ++ " already exists."⟩
  else .ok (dict ++ [{ c with table := some selfId }], addColumnQ tname c)

/-- Python dictionary assignment `d[c.name] = c` on an ordered association
list of columns: overwriting keeps the original position, a new key is
appended. -/
def dictInsertCol (d : List Col) (c : Col) : List Col :=
  if (d.map (fun x => x.name)).contains c.name then
    d.map (fun x => if x.name = c.name then c else x)
  else d ++ [c]

/-- The dict comprehension in `Table.migrate`:
`columns_dict = {column.name: column for column in columns}`. -/
def pyDictOfCols (cs : List Col) : List Col := cs.foldl dictInsertCol []

/-- First loop of `Table.migrate`: drop every tracked column whose name is
not among the target names.  (`drop_column` also deletes each dropped
column's `table` attribute; that mutation is unobserved by the rest of
`migrate`, which reads only column names.) -/
def migrateDropLoop (selfId : Nat) (tname : String) (targetNames : List String) :
    List Col → Except PyErr (List String)
  | [] => .ok []
  | c :: rest =>
    if targetNames.contains c.name then migrateDropLoop selfId tname targetNames rest
    else do
      let d ← dropColumn selfId tname c
      let restEvents ← migrateDropLoop selfId tname targetNames rest
      .ok (d.1 :: restEvents)

/-- Second loop of `Table.migrate`: add every target column whose name is
not already a key of `cls._columns_dict` (which the first loop did not
shrink — `drop_column` removes no dictionary entry), threading the growing
dictionary through `add_column`. -/
def migrateAddLoop (selfId : Nat) (tname : String) :
    List Col → List Col → Except PyErr (List String)
  | _, [] => .ok []
  | dict, c :: rest =>
    if (dict.map (fun x => x.name)).contains c.name then
      migrateAddLoop selfId tname dict rest
    else do
      let a ← addColumn selfId tname dict c
      let restEvents ← migrateAddLoop selfId tname a.1 rest
      .ok (a.2 :: restEvents)

/-- `Table.migrate`: the drop loop over `cls._columns` followed by the add
loop over the target dictionary, returning the issued `ALTER TABLE`
statements in order. -/
def migrate (selfId : Nat) (tname : String) (tracked : List Col)
    (target : List Col) : Except PyErr (List String) := do
  let columnsDict := pyDictOfCols target
  let drops ← migrateDropLoop selfId tname (columnsDict.map (fun c => c.name)) tracked
  let adds ← migrateAddLoop selfId tname tracked columnsDict
  .ok (drops ++ adds)

/-- The `order_by` argument of the fetch methods: either a raw SQL string
or a (column, direction) pair. -/
inductive OrderByArg where
  | raw (s : String)
  | byColumn (name : String) (direction : String)
deriving DecidableEq

/-- `Selectable._build_query_fetch` before the join. -/
def buildQueryFetchTokens (tname : String) (whereClause : String)
    (limit : Option Nat) (orderBy : Option OrderByArg) : List String :=
  ["SELECT * FROM", tname]
    ++ (if whereClause ≠ "" then ["WHERE", whereClause] else [])
    ++ (match orderBy with
        | some (.raw s) => ["ORDER BY", s]
        | some (.byColumn n d) => ["ORDER BY", n, d]
        | none => [])
    ++ (match limit with
        | some n => ["LIMIT", natStr n]
        | none => [])

/-- `Selectable._build_query_fetch` (joined). -/
def buildQueryFetch (tname : String) (whereClause : String) (limit : Option Nat)
    (orderBy : Option OrderByArg) : String :=
  strCat (buildQueryFetchTokens tname whereClause limit orderBy)

/-- `Insertable._build_query_insert` before the join, for a non-string
column iterable (column names), with `update_on_conflict`/`returning`
passed as (possibly empty, hence falsy) column-name lists.
`builder.pop(-1)` is `List.dropLast`. -/
def buildQueryInsertTokens (tname : String) (pkNames : List String)
    (columns : List String) (ignoreOnConflict : Bool)
    (updateOnConflict : List String) (returning : List String) :
    Except PyErr (List String) := do
  let b1 := (["INSERT INTO", tname, "("]
    ++ (columns.map (fun c => [c, ","])).flatten).dropLast
  let b2 := (b1 ++ [") VALUES ("]
    ++ ((List.range columns.length).map (fun i => ["$" ++ natStr (i + 1), ","])).flatten).dropLast
  let b3 := b2 ++ [")"]
  let b4 ←
    if ignoreOnConflict && !updateOnConflict.isEmpty then
      Except.error ⟨"ValueError", ""⟩
    else if ignoreOnConflict then
      Except.ok (b3 ++ ["ON CONFLICT DO NOTHING"])
    else if !updateOnConflict.isEmpty then
      Except.ok ((b3 ++ ["ON CONFLICT ("]
        ++ (pkNames.map (fun c => [c, ","])).flatten).dropLast
        ++ [") DO UPDATE SET"]
        ++ ((updateOnConflict.map (fun c => [c ++ " = EXCLUDED." ++ c, ","])).flatten).dropLast)
    else Except.ok b3
  if !returning.isEmpty then
    Except.ok ((b4 ++ ["RETURNING"] ++ (returning.map (fun c => [c, ","])).flatten).dropLast)
  else Except.ok b4

/-- A database row as the mapping form of an `asyncpg.Record`. -/
abbrev Row : Type := List (String × Val)

/-- A `Table` subclass as registered at class-creation time: its identity,
schema, normalised local name, and `cls._columns_dict` in declaration
order.  `_name` is `schema.local_name` (tables have no overridden name). -/
structure TableModel where
  id : Nat
  schema : String
  localName : String
  cols : List Col
deriving DecidableEq

/-- `Object._name`. -/
def TableModel.name (t : TableModel) : String := t.schema ++ "." ++ t.localName

/-- `cls._primary_keys`, accumulated by `Insertable._setup_column` in
declaration order. -/
def TableModel.pkNames (t : TableModel) : List String :=
  (t.cols.filter (fun c => c.primaryKey)).map (fun c => c.name)

/-- One interaction with the connection collaborator. -/
inductive DbEvent where
  | exec (query : String)
  | fetchQ (query : String) (args : List Val)
  | fetchrowQ (query : String) (args : List Val)
  | executemany (query : String) (rows : List (List Val))
deriving DecidableEq

/-- `Table.create(connection)` with its default arguments
(`if_not_exists=True`, `create_schema=True`, `automatic_migrations=False`)
on a table none of whose columns use a custom type: issues
`CREATE SCHEMA IF NOT EXISTS` followed by the CREATE TABLE statement. -/
def createTableEvents (t : TableModel) : List DbEvent :=
  [DbEvent.exec (strCat ["CREATE SCHEMA", "IF NOT EXISTS", t.schema]),
   DbEvent.exec (queryCreate t.name t.cols true)]

/-- `Creatable.drop(connection)` with its default arguments
(`if_exists=True`, `cascade=False`) on a table. -/
def dropTableEvent (t : TableModel) : DbEvent :=
  DbEvent.exec (strCat ["DROP", "TABLE", "IF EXISTS", t.name])

/-- `Selectable._get_columns` on a record's keys: looks every key up in
`cls._columns_dict` (a missing key raises `KeyError`). -/
def getColumns (t : TableModel) (keys : List String) : Except PyErr (List Col) :=
  keys.mapM (fun k =>
    match t.cols.find? (fun c => c.name == k) with
    | some c => Except.ok c
    | none => Except.error ⟨"KeyError", k⟩)

/-- `Insertable.insert_many(connection, None, *records)` with dictionary
records and default conflict options: infers the column list from the first
record's keys (`values[0]`, an `IndexError` when no records are given),
builds the INSERT statement, and hands each record's value list to
`executemany`. -/
def insertManyFromRecords (t : TableModel) (records : List Row) :
    Except PyErr DbEvent := do
  let firstRecord ←
    match records with
    | [] => Except.error ⟨"IndexError", "tuple index out of range"⟩
    | r :: _ => Except.ok r
  let colObjs ← getColumns t (firstRecord.map (fun p => p.1))
  let q ← buildQueryInsertTokens t.name t.pkNames (colObjs.map (fun c => c.name))
    false [] []
  Except.ok (DbEvent.executemany (strCat q)
    (records.map (fun r => r.map (fun p => p.2))))

/-- `Table.migrate_to`: `sourceRows` are the rows the source table holds
(what `cls.fetch(connection)` returns); `migration` is `none` for the
MISSING sentinel and `some f` for a user-supplied migration function.
Returns the trace of database interactions. -/
def migrateTo (self target : TableModel) (sourceRows : List Row)
    (migration : Option (Row → Row)) (createNewTable dropTable : Bool) :
    Except PyErr (List DbEvent) := do
  if self.name = target.name then
    if migration.isSome then
      Except.error ⟨"ValueError",
        "Custom migration functions are not supported for table alterations."⟩
    else do
      let stmts ← migrate self.id self.name self.cols (target.cols.map colCopy)
      Except.ok (stmts.map DbEvent.exec)
  else
    -- the body of the `async with optional_transaction(...)` block
    match migration with
    | none => do
      -- `migration = dict` (the identity on the mapping form of a record)
      let migrationFn : Row → Row := fun r => r
      let createEvents := if createNewTable then createTableEvents target else []
      let fetchQuery := buildQueryFetch self.name "" none none
      let insertEvent ← insertManyFromRecords target (sourceRows.map migrationFn)
      let dropEvents := if dropTable then [dropTableEvent self] else []
      Except.ok (createEvents ++ [DbEvent.fetchQ fetchQuery []] ++ [insertEvent]
        ++ dropEvents)
    | some _ =>
      -- every statement of the block is nested under `if migration is MISSING:`,
      -- so a supplied migration function reaches the end of the block untouched
      Except.ok []

/-- A native Python value type as it appears in column annotations:
the builtin and standard-library types registered in `_sqltype.py`
(`ipaddress._BaseNetwork` is `pyNetwork`), `list[T]`, and user enumeration
types (identified by their class name). -/
inductive PyType where
  | pyInt
  | pyFloat
  | pyDecimal
  | pyStr
  | pyBytes
  | pyDatetime
  | pyDate
  | pyTimedelta
  | pyBool
  | pyNetwork
  | pyUuid
  | pyDict
  | pyList (elem : PyType)
  | pyEnum (name : String)
deriving DecidableEq

/-- A generated `SQLType` subclass: its class name, its `py_type` and its
`sql_type` string. -/
structure SQLTypeCls where
  clsName : String
  pyType : PyType
  sqlType : String
deriving DecidableEq

/-- The table of `SQLTypeConfig` entries in `_sqltype.py`, in declaration
order: class name, `py_type`, `sql_type`, `is_default`. -/
def sqlTypeConfigs : List (String × PyType × String × Bool) :=
  [("Integer", .pyInt, "INTEGER", true),
   ("SmallInt", .pyInt, "SMALLINT", false),
   ("BigInt", .pyInt, "BIGINT", false),
   ("Serial", .pyInt, "SERIAL", false),
   ("SmallSerial", .pyInt, "SMALLSERIAL", false),
   ("BigSerial", .pyInt, "BIGSERIAL", false),
   ("Float", .pyFloat, "FLOAT", true),
   ("DoublePrecision", .pyFloat, "DOUBLE PRECISION", false),
   ("Numeric", .pyDecimal, "NUMERIC", true),
   ("Money", .pyStr, "MONEY", false),
   ("Character", .pyStr, "CHARACTER", false),
   ("Text", .pyStr, "TEXT", true),
   ("Bytea", .pyBytes, "BYTEA", true),
   ("Timestamp", .pyDatetime, "TIMESTAMP", true),
   ("AwareTimestamp", .pyDatetime, "TIMESTAMP WITH TIME ZONE", true),
   ("Date", .pyDate, "DATE", true),
   ("Interval", .pyTimedelta, "INTERVAL", true),
   ("Boolean", .pyBool, "BOOLEAN", true),
   ("CIDR", .pyNetwork, "CIDR", false),
   ("Inet", .pyNetwork, "INET", false),
   ("MACAddr", .pyStr, "MACADDR", false),
   ("UUID", .pyUuid, "UUID", true),
   ("JSON", .pyDict, "JSON", false),
   ("JSONB", .pyDict, "JSONB", true)]

/-- The `SQLType` subclasses generated by the loop at the bottom of
`_sqltype.py`: each config entry generates `SQLType[T]` and then
`SQLType[list[T]]` (sql type suffixed `[]`), in that order, each paired
with its `is_default` flag. -/
def registeredClasses : List (SQLTypeCls × Bool) :=
  (sqlTypeConfigs.map (fun e =>
    [((⟨e.1, e.2.1, e.2.2.1⟩ : SQLTypeCls), e.2.2.2),
     ((⟨e.1 ++ "[]", .pyList e.2.1, e.2.2.1 ++ "[]"⟩ : SQLTypeCls), e.2.2.2)])).flatten

/-- Python dictionary assignment on a `PyType`-keyed association list. -/
def dictAssignPyType (d : List (PyType × SQLTypeCls)) (k : PyType)
    (v : SQLTypeCls) : List (PyType × SQLTypeCls) :=
  if (d.map (fun x => x.1)).contains k then
    d.map (fun x => if x.1 = k then (k, v) else x)
  else d ++ [(k, v)]

/-- `SQLType.__defaults` as left behind by the registration loop: each
`__init_subclass__` call with `default=True` performs
`__defaults[py_type] = cls`, so a later default registration for the same
`py_type` overwrites an earlier one. -/
def sqlDefaultsDict : List (PyType × SQLTypeCls) :=
  registeredClasses.foldl
    (fun d p => if p.2 then dictAssignPyType d p.1.pyType p.1 else d) []

/-- `SQLType.__defaults[type]` as an optional lookup. -/
def sqlDefaults (t : PyType) : Option SQLTypeCls :=
  (sqlDefaultsDict.find? (fun p => p.1 == t)).map (fun p => p.2)

/-- The spec's "registered default SQL type" for a native type: the most
recent registration with `default=True` whose `py_type` is the given
type. -/
def latestDefault (t : PyType) : Option SQLTypeCls :=
  (registeredClasses.reverse.find? (fun p => p.2 && p.1.pyType == t)).map
    (fun p => p.1)

/-- `issubclass(type, Enum)`. -/
def PyType.isEnumType : PyType → Bool
  | .pyEnum _ => true
  | _ => false

/-- `donphan.utils.normalise_name`: lowercases the first character and
replaces every later uppercase letter with an underscore followed by its
lowercase form. -/
def normaliseName (s : String) : String :=
  match s.data with
  | [] => ""
  | c :: rest =>
    ⟨c.toLower :: (rest.map (fun d =>
      if d.isUpper then ['_', d.toLower] else [d])).flatten⟩

/-- A rendering of the native type for the `KeyError` message. -/
def pyTypeName : PyType → String
  | .pyInt => "int"
  | .pyFloat => "float"
  | .pyDecimal => "decimal.Decimal"
  | .pyStr => "str"
  | .pyBytes => "bytes"
  | .pyDatetime => "datetime.datetime"
  | .pyDate => "datetime.date"
  | .pyTimedelta => "datetime.timedelta"
  | .pyBool => "bool"
  | .pyNetwork => "ipaddress._BaseNetwork"
  | .pyUuid => "uuid.UUID"
  | .pyDict => "dict"
  | .pyList t => "list[" ++ pyTypeName t ++ "]"
  | .pyEnum n => n

/-- `SQLType._from_type`: enumeration types get a dedicated (memoized)
`EnumType` subclass whose `sql_type` is its qualified name
(`Object.__init_subclass__` + `CustomType.__init_subclass__`); every other
type is looked up in `SQLType.__defaults`, where a missing key raises
`KeyError` (the plain dictionary subscript `cls.__defaults[type]`). -/
def sqlTypeFromType (t : PyType) : Except PyErr SQLTypeCls :=
  if t.isEnumType then
    match t with
    | .pyEnum n => .ok ⟨n, .pyEnum n, "public." ++ normaliseName n⟩
    | _ => .error ⟨"TypeError", "unreachable"⟩
  else
    match sqlDefaults t with
    | some s => .ok s
    | none => .error ⟨"KeyError", pyTypeName t⟩

/-- Which of the two joined sources a `JoinColumn` was drawn from
(`column.source` is the source Selectable object; the two possibilities
are the left operand `a` and the right operand `b`). -/
inductive Side where
  | left
  | right
deriving DecidableEq

/-- `donphan._column.JoinColumn`: name plus originating source. -/
structure JCol where
  name : String
  source : Side
deriving DecidableEq

/-- `Join.set_column`: `cls._columns_dict[column.name] = column`
(dictionary assignment: overwriting keeps the original position). -/
def setColumn (d : List JCol) (name : String) (source : Side) : List JCol :=
  if (d.map (fun c => c.name)).contains name then
    d.map (fun c => if c.name = name then ⟨name, source⟩ else c)
  else d ++ [⟨name, source⟩]

/-- `Join._set_columns`: every column of the left source `a`, then every
column of the right source `b` whose name is not already present. -/
def setColumns (leftCols rightCols : List String) : List JCol :=
  let afterLeft := leftCols.foldl (fun d n => setColumn d n Side.left) []
  rightCols.foldl
    (fun d n =>
      if (d.map (fun c => c.name)).contains n then d else setColumn d n Side.right)
    afterLeft

/-- A Selectable as seen by the join composer: its `_name` (for a `Join`,
the generated derived-table body), its column names in declaration order,
whether it is itself a `Join`, and (when it is) its `_alias`. -/
structure SelSrc where
  name : String
  cols : List String
  isJoin : Bool
  joinAlias : String
deriving DecidableEq

/-- The class produced by `Selectable._join(other, type, on)`: its two
source Selectables, `_type`, and `_on` (each clause normalised to a
(left column, right column, operator) triple; `OnClause.__new__` defaults
the operator to `"eq"`). -/
structure JoinModel where
  left : SelSrc
  right : SelSrc
  typ : String
  onClauses : List (String × String × String)
deriving DecidableEq

/-- `Selectable._join`. -/
def joinMk (a b : SelSrc) (typ : String)
    (onClauses : List (String × String × String)) : JoinModel :=
  ⟨a, b, typ, onClauses⟩

/-- `Selectable.inner_join`. -/
def innerJoinM (a b : SelSrc) (onClauses : List (String × String × String)) :
    JoinModel :=
  joinMk a b "INNER" onClauses

/-- `Selectable.left_join`. -/
def leftJoinM (a b : SelSrc) (onClauses : List (String × String × String)) :
    JoinModel :=
  joinMk a b "LEFT" onClauses

/-- `Selectable.right_join` — the source passes the string `"LEFT"` to
`cls._join` (`_selectable.py` line 451). -/
def rightJoinM (a b : SelSrc) (onClauses : List (String × String × String)) :
    JoinModel :=
  joinMk a b "LEFT" onClauses

/-- `Selectable.full_outer_join`. -/
def fullOuterJoinM (a b : SelSrc) (onClauses : List (String × String × String)) :
    JoinModel :=
  joinMk a b "FULL OUTER" onClauses

/-- `Join._build_select` before the join.  `generate_alias()` draws from
`os.urandom`, so the two freshly generated aliases and the join's own alias
are explicit arguments here; a source that is itself a `Join` reuses its
stored alias instead.  An unknown operator key in an ON clause raises
`KeyError` (`OPERATORS[operator]`). -/
def buildSelectTokens (j : JoinModel) (freshA freshB selfAlias : String) :
    Except PyErr (List String) := do
  let aliasA := if j.left.isJoin then j.left.joinAlias else freshA
  let aliasB := if j.right.isJoin then j.right.joinAlias else freshB
  let merged := setColumns j.left.cols j.right.cols
  let colTokens := ((merged.map (fun c =>
    [(if c.source = Side.left then aliasA else aliasB) ++ "." ++ c.name,
     "AS", c.name, ","])).flatten).dropLast
  let onTokens ← j.onClauses.mapM (fun cl => do
    let sym ←
      match lookupStr OPERATORS cl.2.2 with
      | some s => Except.ok s
      | none => Except.error (⟨"KeyError", cl.2.2⟩ : PyErr)
    Except.ok [aliasA ++ "." ++ cl.1, sym, aliasB ++ "." ++ cl.2.1, "AND"])
  Except.ok (["( SELECT"] ++ colTokens
    ++ ["FROM", j.left.name] ++ (if !j.left.isJoin then ["AS", aliasA] else [])
    ++ [j.typ, "JOIN", j.right.name]
    ++ (if !j.right.isJoin then ["AS", aliasB] else [])
    ++ ["ON"] ++ (onTokens.flatten).dropLast
    ++ [") AS", selfAlias])

/-- `Join._build_select` (joined): the generated derived-table body that
becomes the join's `_overridden_name`. -/
def buildSelect (j : JoinModel) (freshA freshB selfAlias : String) :
    Except PyErr String :=
  (buildSelectTokens j freshA freshB selfAlias).map strCat

/-- Python `record[k]` on the mapping form of a row (`KeyError` when the
key is missing). -/
def pyDictGetVal (d : List (String × Val)) (k : String) : Except PyErr Val :=
  match d.find? (fun p => p.1 == k) with
  | some p => .ok p.2
  | none => .error ⟨"KeyError", k⟩

/-- `Insertable._get_primary_keys`: the dict comprehension
`{column.name: record[column.name] for column in cls._primary_keys}`. -/
def getPrimaryKeys (pkNames : List String) (record : Row) :
    Except PyErr (List (String × Val)) :=
  pkNames.mapM (fun n => (pyDictGetVal record n).map (fun v => (n, v)))

/-- `CachedTable._get_primary_key_values`:
`tuple(cls._get_primary_keys(record).values())`. -/
def getPrimaryKeyValues (pkNames : List String) (record : Row) :
    Except PyErr (List Val) :=
  (getPrimaryKeys pkNames record).map (fun l => l.map (fun p => p.2))

/-- The per-class cache `cls._cache`: primary-key tuple to row snapshot,
in insertion order (the unbounded `dict` configuration). -/
abbrev Cache : Type := List (List Val × Row)

/-- `CachedTable.get_cached(**kwargs)`: extracts the primary-key tuple from
the keyword mapping and returns a (deep-copied — value semantics here)
snapshot of the cached row, or `None`. -/
def getCached (pkNames : List String) (cache : Cache) (kwargs : Row) :
    Except PyErr (Option Row) := do
  let key ← getPrimaryKeyValues pkNames kwargs
  match cache.find? (fun e => e.1 == key) with
  | some e => Except.ok (some e.2)
  | none => Except.ok none

/-- `CachedTable._store_cached`: `cls._cache[args] = record`. -/
def storeCached (cache : Cache) (key : List Val) (record : Row) : Cache :=
  if (cache.map (fun e => e.1)).contains key then
    cache.map (fun e => if e.1 = key then (key, record) else e)
  else cache ++ [(key, record)]

/-- The uncached `Selectable.fetch_row_where`: builds the SELECT query with
no LIMIT and hands it to `connection.fetchrow`; `db` models the connection
(query text and positional parameters to an optional row). -/
def fetchRowWhere (db : String → List Val → Option Row) (tname : String)
    (whereStr : String) (vals : List Val) (orderBy : Option OrderByArg) :
    Option Row :=
  db (buildQueryFetch tname whereStr none orderBy) vals

/-- The keyword dictionary that `CachedTable.fetch_row_where` receives when
invoked through `Selectable.fetch_row`, which forwards exactly
`order_by=order_by`: a single `"order_by"` entry.  (Only the keys of this
dictionary matter to the primary-key extraction; the value embedding of a
non-`None` order-by argument is immaterial.) -/
def orderByKwargs (orderBy : Option OrderByArg) : Row :=
  [("order_by", match orderBy with
    | none => Val.vnone
    | some (.raw s) => Val.vstr s
    | some (.byColumn n d) => Val.vstr (n ++ " " ++ d))]

/-- `CachedTable.fetch_row_where` (the override in `_cache.py`): consults
`get_cached(**kwargs)` first, otherwise delegates to the base
implementation and stores a returned row under its primary-key tuple. -/
def cachedFetchRowWhere (t : TableModel) (db : String → List Val → Option Row)
    (cache : Cache) (whereStr : String) (vals : List Val)
    (orderBy : Option OrderByArg) : Except PyErr (Option Row × Cache) := do
  let cachedResult ← getCached t.pkNames cache (orderByKwargs orderBy)
  match cachedResult with
  | some r => Except.ok (some r, cache)
  | none =>
    match fetchRowWhere db t.name whereStr vals orderBy with
    | some result => do
      let key ← getPrimaryKeyValues t.pkNames result
      Except.ok (some result, storeCached cache key result)
    | none => Except.ok (none, cache)

/-- `Selectable.fetch_row` as inherited by a `CachedTable` subclass: builds
the WHERE clause from the keyword values, then calls the (overridden)
`fetch_row_where` with the non-`None` values and the `order_by` keyword. -/
def cachedFetchRow (t : TableModel) (db : String → List Val → Option Row)
    (cache : Cache) (values : List (String × Val)) (orderBy : Option OrderByArg) :
    Except PyErr (Option Row × Cache) := do
  let whereClause ← buildWhereClause t.name
    (t.cols.map (fun c => (c.name, c.sqlType))) values
  cachedFetchRowWhere t db cache whereClause (fetchArgs values) orderBy

/-- `Selectable.fetch_row` on a plain (uncached) table, for contrast. -/
def fetchRow (t : TableModel) (db : String → List Val → Option Row)
    (values : List (String × Val)) (orderBy : Option OrderByArg) :
    Except PyErr (Option Row) := do
  let whereClause ← buildWhereClause t.name
    (t.cols.map (fun c => (c.name, c.sqlType))) values
  Except.ok (fetchRowWhere db t.name whereClause (fetchArgs values) orderBy)

/-- `CachedTable.insert_many`: the body is a bare
`raise NotImplementedError`, reached before any database interaction or
cache access; the result carries the unchanged cache and the (empty) event
trace to make that observable. -/
def cachedInsertMany (cache : Cache) (_columns : Option (List String))
    (_records : List Row) : Except PyErr Unit × Cache × List DbEvent :=
  (Except.error ⟨"NotImplementedError", ""⟩, cache, [])

/-- A two-column example table (`users(a, b)`) as a join source. -/
def exUsers : SelSrc := ⟨"public.users", ["a", "b"], false, ""⟩

/-- A two-column example table (`orders(a, c)`) as a join source. -/
def exOrders : SelSrc := ⟨"public.orders", ["a", "c"], false, ""⟩

/-- Example column `a INTEGER PRIMARY KEY`. -/
def colAInt : Col := { name := "a", sqlType := "INTEGER", primaryKey := true }

/-- Example column `b INTEGER`. -/
def colBInt : Col := { name := "b", sqlType := "INTEGER" }

/-- Example column `c TEXT`. -/
def colCText : Col := { name := "c", sqlType := "TEXT" }

/-- Example column flagged both `primary_key` and `unique`. -/
def exPrimaryUniqueCol : Col :=
  { name := "a", sqlType := "INTEGER", primaryKey := true, unique := true }

/-- Example declared table `public.old_table(a, b)` with its columns bound
to it (id 1). -/
def exSourceTable : TableModel :=
  ⟨1, "public", "old_table",
   [{ colAInt with table := some 1 }, { colBInt with table := some 1 }]⟩

/-- Example declared table `public.new_table(a, b)` (id 2). -/
def exTargetTable : TableModel := ⟨2, "public", "new_table", [colAInt, colBInt]⟩

/-- An example connection whose `fetchrow` always finds the row
`{a: 0, b: 2}`. -/
def exDb : String → List Val → Option Row :=
  fun _ _ => some [("a", Val.vint 0), ("b", Val.vint 2)]

/-- **C1** (code bug): `Selectable.right_join`'s own docstring promises a
``RIGHT JOIN``, but its body passes the string `"LEFT"` to `cls._join`
(`_selectable.py` line 451).  Consequently, for every pair of sources and
every on-clause the produced join's `_type` is `"LEFT"`, and on the
concrete pair `users(a,b)`/`orders(a,c)` the generated derived-table body
contains `LEFT JOIN` — and no `RIGHT JOIN` — between the two source
names. -/
theorem C1_right_join_emits_left_join :
    (∀ (a b : SelSrc) (onClauses : List (String × String × String)),
      (rightJoinM a b onClauses).typ = "LEFT")
    ∧ buildSelect (rightJoinM exUsers exOrders [("a", "a", "eq")]) "x" "y" "j" =
        .ok ("( SELECT x.a AS a , x.b AS b , y.c AS c FROM public.users AS x "
          ++ "LEFT JOIN public.orders AS y ON x.a = y.a ) AS j")
    ∧ pyContains ("( SELECT x.a AS a , x.b AS b , y.c AS c FROM public.users AS x "
        ++ "LEFT JOIN public.orders AS y ON x.a = y.a ) AS j") "LEFT JOIN" = true
    ∧ pyContains ("( SELECT x.a AS a , x.b AS b , y.c AS c FROM public.users AS x "
        ++ "LEFT JOIN public.orders AS y ON x.a = y.a ) AS j") "RIGHT JOIN" = false :=
  ⟨fun _ _ _ => rfl, rfl, rfl, rfl⟩

/-- **C3** counterexample: a column flagged both `primary_key` and `unique`
gives an empty "uniquely-constrained non-primary" set, yet the generated
statement still contains a `UNIQUE (` clause listing that primary column —
`Table._query_create` collects every `unique` column without excluding
primary-key columns. -/
theorem C3_counterexample_unique_includes_primary :
    ([exPrimaryUniqueCol, colBInt].filter (fun c => c.unique && !c.primaryKey)) = []
    ∧ (queryCreateTokens "public.t" [exPrimaryUniqueCol, colBInt] true).contains
        "UNIQUE (" = true
    ∧ queryCreate "public.t" [exPrimaryUniqueCol, colBInt] true =
      "CREATE TABLE IF NOT EXISTS public.t ( a INTEGER , b INTEGER , UNIQUE ( a ) , PRIMARY KEY ( a ) )" :=
  ⟨rfl, rfl, rfl⟩

/-- **C5** (code bug): every statement of `migrate_to`'s distinct-target
branch is nested under `if migration is MISSING:`, so a call with a
supplied migration function performs no database interaction at all (no
create, no fetch, no insert, no drop), whatever the flags; the default
(MISSING) migration performs the full pipeline. -/
theorem C5_migrate_to_custom_migration_does_nothing :
    (∀ (f : Row → Row) (createNew dropT : Bool) (rows : List Row),
      migrateTo exSourceTable exTargetTable rows (some f) createNew dropT = .ok [])
    ∧ migrateTo exSourceTable exTargetTable
        [[("a", Val.vint 1), ("b", Val.vint 2)]] none true true =
      .ok [DbEvent.exec "CREATE SCHEMA IF NOT EXISTS public",
        DbEvent.exec
          "CREATE TABLE IF NOT EXISTS public.new_table ( a INTEGER , b INTEGER , PRIMARY KEY ( a ) )",
        DbEvent.fetchQ "SELECT * FROM public.old_table" [],
        DbEvent.executemany "INSERT INTO public.new_table ( a , b ) VALUES ( $1 , $2 )"
          [[Val.vint 1, Val.vint 2]],
        DbEvent.exec "DROP TABLE IF EXISTS public.old_table"] :=
  ⟨fun _ _ _ _ => rfl, rfl⟩

/-- **C6** (amended): for every cache state, every columns argument and
every row tuple, `CachedTable.insert_many` raises `NotImplementedError`
(the code base defines no `NotSupportedError`), executes no database
statement, and leaves the cache unchanged. -/
theorem C6_cached_insert_many_raises (cache : Cache) (columns : Option (List String))
    (records : List Row) :
    cachedInsertMany cache columns records =
      (Except.error ⟨"NotImplementedError", ""⟩, cache, []) := rfl

/-- **C6** counterexample to the claim as stated: at a concrete input the
raised exception class is `NotImplementedError`, which is not the claimed
`NotSupportedError`. -/
theorem C6_counterexample_not_supported_error :
    (cachedInsertMany [] none [[("a", Val.vint 1)]]).1 =
      Except.error ⟨"NotImplementedError", ""⟩
    ∧ ("NotImplementedError" : String) ≠ "NotSupportedError" :=
  ⟨rfl, by decide⟩

/-- **C7** counterexample to the claim as stated: `ipaddress._BaseNetwork`
has no registered default SQL type and is no enumeration, and the
type-registry lookup fails with `KeyError` (the bare dictionary subscript
`cls.__defaults[type]`), not with the claimed `UnknownTypeError` — no such
exception class exists in the code base. -/
theorem C7_counterexample_key_error :
    sqlTypeFromType PyType.pyNetwork =
      .error ⟨"KeyError", "ipaddress._BaseNetwork"⟩
    ∧ ("KeyError" : String) ≠ "UnknownTypeError" :=
  ⟨rfl, by decide⟩

/-- `filter` over a cons whose head satisfies the predicate, with the
predicate explicit (for controlled rewriting). -/
theorem filterConsPos {α : Type} (p : α → Bool) (a : α) (l : List α)
    (h : p a = true) : (a :: l).filter p = a :: l.filter p := by
  rw [List.filter_cons, h]
  rfl

/-- `filter` over a cons whose head fails the predicate, with the
predicate explicit (for controlled rewriting). -/
theorem filterConsNeg {α : Type} (p : α → Bool) (a : α) (l : List α)
    (h : p a = false) : (a :: l).filter p = l.filter p := by
  rw [List.filter_cons, h]
  rfl

/-- Assigning a fresh name into a join-column dictionary appends. -/
theorem setColumn_fresh (d : List JCol) (n : String) (s : Side)
    (h : n ∉ d.map (fun c => c.name)) : setColumn d n s = d ++ [⟨n, s⟩] := by
  simp [setColumn, List.elem_eq_mem, h]

/-- The first loop of `Join._set_columns` appends a tagged copy of every
left-source column, provided the names are distinct and fresh for the
accumulator. -/
theorem setColumns_left_fold (L : List String) : ∀ (acc : List JCol), L.Nodup →
    (∀ n ∈ L, n ∉ acc.map (fun c => c.name)) →
    L.foldl (fun d n => setColumn d n Side.left) acc =
      acc ++ L.map (fun n => ⟨n, Side.left⟩) := by
  induction L with
  | nil => intro acc _ _; simp
  | cons n rest ih =>
    intro acc hnd hfresh
    obtain ⟨hn_rest, hrest_nd⟩ := List.nodup_cons.mp hnd
    have hfresh' : ∀ m ∈ rest, m ∉ (acc ++ [(⟨n, Side.left⟩ : JCol)]).map (fun c => c.name) := by
      intro m hm
      simp only [List.map_append, List.mem_append, List.map_cons, List.map_nil,
        List.mem_singleton, not_or]
      exact ⟨hfresh m (List.mem_cons_of_mem _ hm), fun h => hn_rest (h ▸ hm)⟩
    rw [List.foldl_cons, setColumn_fresh acc n Side.left (hfresh n (by simp)),
      ih _ hrest_nd hfresh']
    simp

/-- The second loop of `Join._set_columns` appends a tagged copy of every
right-source column whose name is absent from the dictionary it started
with, provided the right-source names are distinct. -/
theorem setColumns_right_fold (R : List String) : ∀ (d : List JCol), R.Nodup →
    R.foldl (fun d n =>
        if (d.map (fun c => c.name)).contains n then d else setColumn d n Side.right) d =
      d ++ (R.filter (fun n => !(d.map (fun c => c.name)).contains n)).map
        (fun n => ⟨n, Side.right⟩) := by
  induction R with
  | nil => intro d _; simp
  | cons n rest ih =>
    intro d hnd
    obtain ⟨hn_rest, hrest_nd⟩ := List.nodup_cons.mp hnd
    by_cases h : n ∈ d.map (fun c => c.name)
    · have hc : (d.map (fun c => c.name)).contains n = true := by
        simp [List.elem_eq_mem, h]
      have hpred : (!(d.map (fun c => c.name)).contains n) = false := by
        simp only [hc]; rfl
      rw [List.foldl_cons, if_pos hc, ih d hrest_nd]
      simp only [List.filter_cons, hpred]
      simp
    · have hc : (d.map (fun c => c.name)).contains n = false := by
        simp [List.elem_eq_mem, h]
      have hcond : ¬((d.map (fun c => c.name)).contains n = true) := by
        simp only [hc]; decide
      have hpred : (!(d.map (fun c => c.name)).contains n) = true := by
        simp only [hc]; rfl
      rw [List.foldl_cons, if_neg hcond, setColumn_fresh d n Side.right h,
        ih _ hrest_nd]
      have hfilter : rest.filter
          (fun m => !((d ++ [(⟨n, Side.right⟩ : JCol)]).map (fun c => c.name)).contains m) =
          rest.filter (fun m => !(d.map (fun c => c.name)).contains m) := by
        apply List.filter_congr
        intro m hm
        have hmn : m ≠ n := fun hEq => hn_rest (hEq ▸ hm)
        simp [List.elem_eq_mem, hmn]
      rw [hfilter]
      simp only [List.filter_cons, hpred]
      simp

/-- **C8**: the merged column list of a join is the left source's columns
(in declaration order, each drawn from the left) followed by the right
source's columns whose names do not occur on the left (in the right
source's order, drawn from the right); on a collision the column comes
from the left source. -/
theorem C8_join_column_union (L R : List String) (hL : L.Nodup) (hR : R.Nodup) :
    setColumns L R =
      L.map (fun n => ⟨n, Side.left⟩)
        ++ (R.filter (fun n => !L.contains n)).map (fun n => ⟨n, Side.right⟩) := by
  unfold setColumns
  rw [setColumns_left_fold L [] hL (by simp), List.nil_append,
    setColumns_right_fold R _ hR]
  have hnames : ∀ M : List String,
      (M.map (fun n => (⟨n, Side.left⟩ : JCol))).map (fun c => c.name) = M := by
    intro M
    induction M with
    | nil => rfl
    | cons x xs ihx => simpa using ihx
  simp only [hnames]

/-- **C8** witness: joining column lists `{a, b}` and `{a, c}` yields
exactly `{a, b, c}` with `a` drawn from the left source. -/
theorem C8_join_column_union_witness :
    (["a", "b"] : List String).Nodup
    ∧ (["a", "c"] : List String).Nodup
    ∧ setColumns ["a", "b"] ["a", "c"] =
        (["a", "b"].map (fun n => (⟨n, Side.left⟩ : JCol)))
          ++ ((["a", "c"].filter (fun n => !(["a", "b"].contains n))).map
            (fun n => (⟨n, Side.right⟩ : JCol)))
    ∧ setColumns ["a", "b"] ["a", "c"] =
        [⟨"a", Side.left⟩, ⟨"b", Side.left⟩, ⟨"c", Side.right⟩] :=
  ⟨by decide, by decide, C8_join_column_union _ _ (by decide) (by decide), rfl⟩

/-- The comma bookkeeping of the clause builders: appending a comma after
every column name and popping the final one yields the names interspersed
with commas. -/
theorem commaTokens_eq_intersperse : ∀ (l : List Col),
    ((l.map (fun c => [c.name, ","])).flatten).dropLast =
      List.intersperse "," (l.map (fun c => c.name)) := by
  intro l
  induction l with
  | nil => rfl
  | cons n rest ih =>
    cases rest with
    | nil => rfl
    | cons m rest' =>
      have hne : (((m :: rest').map (fun c : Col => [c.name, ","])).flatten) ≠ [] := by
        simp
      have hstep : ((n :: m :: rest').map (fun c : Col => [c.name, ","])).flatten =
          [n.name, ","] ++ ((m :: rest').map (fun c : Col => [c.name, ","])).flatten := rfl
      rw [hstep, List.dropLast_append_of_ne_nil _ hne, ih]
      rfl

/-- **C3** (amended): for every non-empty declared column list, the CREATE
TABLE token list consists of the header, the column clauses, a `UNIQUE`
clause listing exactly the `unique`-flagged columns — all of them, whether
or not also primary — in declaration order (omitted when there are none),
and a `PRIMARY KEY` clause listing exactly the `primary_key`-flagged
columns in declaration order (omitted when there are none). -/
theorem C3_create_table_clauses (tname : String) (cols : List Col)
    (ifNotExists : Bool) (hcols : cols ≠ []) :
    queryCreateTokens tname cols ifNotExists =
      createTokensSpec tname cols ifNotExists := by
  have hbody : (cols.map (fun c => [colQuery c, ","])).flatten ≠ [] := by
    cases cols with
    | nil => exact absurd rfl hcols
    | cons c rest => simp
  by_cases hu : (cols.filter (fun c => c.unique)).isEmpty = true
  · have hUC : uniqueClauseSpec cols = [] := by
      unfold uniqueClauseSpec; rw [if_pos hu]
    by_cases hp : (cols.filter (fun c => c.primaryKey)).isEmpty = true
    · have hPC : primaryKeyClauseSpec cols = [] := by
        unfold primaryKeyClauseSpec; rw [if_pos hp]
      simp only [queryCreateTokens]
      rw [if_pos hu, if_pos hp, List.dropLast_append_of_ne_nil _ hbody]
      simp [createTokensSpec, hUC, hPC, List.append_assoc]
    · have hPC : primaryKeyClauseSpec cols =
          ["PRIMARY KEY ("] ++ List.intersperse ","
            ((cols.filter (fun c => c.primaryKey)).map (fun c => c.name)) ++ [")"] := by
        unfold primaryKeyClauseSpec; rw [if_neg hp]
      simp only [queryCreateTokens]
      rw [if_pos hu, if_neg hp, commaTokens_eq_intersperse]
      simp [createTokensSpec, hUC, hPC, List.append_assoc]
  · have hUC : uniqueClauseSpec cols =
        ["UNIQUE ("] ++ List.intersperse ","
          ((cols.filter (fun c => c.unique)).map (fun c => c.name)) ++ [")"] := by
      unfold uniqueClauseSpec; rw [if_neg hu]
    by_cases hp : (cols.filter (fun c => c.primaryKey)).isEmpty = true
    · have hPC : primaryKeyClauseSpec cols = [] := by
        unfold primaryKeyClauseSpec; rw [if_pos hp]
      simp only [queryCreateTokens]
      rw [if_neg hu, if_pos hp, commaTokens_eq_intersperse,
        List.dropLast_append_of_ne_nil _ (by simp : ([")", ","] : List String) ≠ [])]
      simp [createTokensSpec, hUC, hPC, List.append_assoc]
    · have hPC : primaryKeyClauseSpec cols =
          ["PRIMARY KEY ("] ++ List.intersperse ","
            ((cols.filter (fun c => c.primaryKey)).map (fun c => c.name)) ++ [")"] := by
        unfold primaryKeyClauseSpec; rw [if_neg hp]
      simp only [queryCreateTokens]
      rw [if_neg hu, if_neg hp, commaTokens_eq_intersperse,
        commaTokens_eq_intersperse]
      simp [createTokensSpec, hUC, hPC, List.append_assoc]

/-- **C3** witness: a table with a unique primary column `a` and a plain
column `b` instantiates the amended clause shape. -/
theorem C3_create_table_clauses_witness :
    (([exPrimaryUniqueCol, colBInt] : List Col) ≠ [])
    ∧ queryCreateTokens "public.t" [exPrimaryUniqueCol, colBInt] true =
      createTokensSpec "public.t" [exPrimaryUniqueCol, colBInt] true
    ∧ createTokensSpec "public.t" [exPrimaryUniqueCol, colBInt] true =
      ["CREATE TABLE", "IF NOT EXISTS", "public.t", "(", "a INTEGER", ",",
       "b INTEGER", ",", "UNIQUE (", "a", ")", ",", "PRIMARY KEY (", "a", ")", ")"] :=
  ⟨by decide,
   C3_create_table_clauses "public.t" [exPrimaryUniqueCol, colBInt] true (by decide),
   rfl⟩

/-- Inserting a column with a fresh name into a column dictionary
appends. -/
theorem dictInsertCol_fresh (d : List Col) (c : Col)
    (h : c.name ∉ d.map (fun x => x.name)) : dictInsertCol d c = d ++ [c] := by
  simp [dictInsertCol, List.elem_eq_mem, h]

/-- The dict comprehension of `Table.migrate` is the identity on a column
list with distinct names. -/
theorem pyDictOfCols_eq_self_aux (cs : List Col) : ∀ (d : List Col),
    ((d ++ cs).map (fun c => c.name)).Nodup → cs.foldl dictInsertCol d = d ++ cs := by
  induction cs with
  | nil => intro d _; simp
  | cons c rest ih =>
    intro d hnd
    have hfresh : c.name ∉ d.map (fun x => x.name) := by
      intro hmem
      rw [List.map_append] at hnd
      obtain ⟨x, hx, hxn⟩ := List.mem_map.mp hmem
      exact (List.disjoint_of_nodup_append hnd) hmem (by simp)
    rw [List.foldl_cons, dictInsertCol_fresh d c hfresh, ih (d ++ [c]) ?_]
    · simp
    · simpa using hnd

/-- `pyDictOfCols` is the identity on a column list with distinct names. -/
theorem pyDictOfCols_eq_self (cs : List Col)
    (h : (cs.map (fun c => c.name)).Nodup) : pyDictOfCols cs = cs := by
  have := pyDictOfCols_eq_self_aux cs [] (by simpa using h)
  simpa [pyDictOfCols] using this

/-- Unfolding equation for the drop loop on a non-empty column list. -/
theorem migrateDropLoop_cons (selfId : Nat) (tname : String)
    (targetNames : List String) (c : Col) (rest : List Col) :
    migrateDropLoop selfId tname targetNames (c :: rest) =
      (if targetNames.contains c.name then
        migrateDropLoop selfId tname targetNames rest
      else do
        let d ← dropColumn selfId tname c
        let restEvents ← migrateDropLoop selfId tname targetNames rest
        .ok (d.1 :: restEvents)) := rfl

/-- The drop loop of `Table.migrate` succeeds on columns owned by the
table and issues exactly one `DROP COLUMN` statement per tracked column
whose name is absent from the target, in declaration order. -/
theorem migrateDropLoop_eq (selfId : Nat) (tname : String)
    (targetNames : List String) :
    ∀ (tracked : List Col), (∀ c ∈ tracked, c.table = some selfId) →
    migrateDropLoop selfId tname targetNames tracked =
      .ok ((tracked.filter (fun c => !targetNames.contains c.name)).map
        (dropColumnQ tname)) := by
  intro tracked
  induction tracked with
  | nil => intro _; rfl
  | cons c rest ih =>
    intro hOwn
    have hrest := ih (fun x hx => hOwn x (List.mem_cons_of_mem _ hx))
    by_cases h : targetNames.contains c.name = true
    · have hpred : (!targetNames.contains c.name) = false := by
        simp only [h]; rfl
      rw [migrateDropLoop_cons, if_pos h, hrest,
        filterConsNeg (fun x : Col => !targetNames.contains x.name) c rest hpred]
    · have hc : targetNames.contains c.name = false := by
        revert h; cases targetNames.contains c.name <;> simp
      have hpred : (!targetNames.contains c.name) = true := by
        simp only [hc]; rfl
      have hdrop : dropColumn selfId tname c =
          .ok (dropColumnQ tname c, { c with table := none }) := by
        simp [dropColumn, hOwn c (by simp)]
      rw [migrateDropLoop_cons, if_neg h, hdrop]
      show Except.bind (migrateDropLoop selfId tname targetNames rest)
        (fun restEvents => Except.ok (dropColumnQ tname c :: restEvents)) = _
      rw [hrest,
        filterConsPos (fun x : Col => !targetNames.contains x.name) c rest hpred]
      rfl

/-- Unfolding equation for the add loop on a non-empty column list. -/
theorem migrateAddLoop_cons (selfId : Nat) (tname : String) (dict : List Col)
    (c : Col) (rest : List Col) :
    migrateAddLoop selfId tname dict (c :: rest) =
      (if (dict.map (fun x => x.name)).contains c.name then
        migrateAddLoop selfId tname dict rest
      else do
        let a ← addColumn selfId tname dict c
        let restEvents ← migrateAddLoop selfId tname a.1 rest
        .ok (a.2 :: restEvents)) := rfl

/-- The add loop of `Table.migrate` succeeds on fresh target columns and
issues exactly one `ADD COLUMN` statement per target column whose name is
absent from the starting dictionary, in target order. -/
theorem migrateAddLoop_eq (selfId : Nat) (tname : String) :
    ∀ (target : List Col) (dict : List Col),
    (target.map (fun c => c.name)).Nodup →
    (∀ c ∈ target, c.name ∉ dict.map (fun x => x.name) → c.table = none) →
    migrateAddLoop selfId tname dict target =
      .ok ((target.filter
          (fun c => !(dict.map (fun x => x.name)).contains c.name)).map
        (addColumnQ tname)) := by
  intro target
  induction target with
  | nil => intro dict _ _; rfl
  | cons c rest ih =>
    intro dict hnd hfresh
    have hnd' : (c.name :: rest.map (fun x => x.name)).Nodup := by simpa using hnd
    obtain ⟨hc_rest, hrest_nd⟩ := List.nodup_cons.mp hnd'
    by_cases h : c.name ∈ dict.map (fun x => x.name)
    · have hcont : (dict.map (fun x => x.name)).contains c.name = true := by
        simp [List.elem_eq_mem, h]
      have hpred : (!(dict.map (fun x : Col => x.name)).contains c.name) = false := by
        simp only [hcont]; rfl
      have hrest' := ih dict hrest_nd
        (fun x hx hnx => hfresh x (List.mem_cons_of_mem _ hx) hnx)
      rw [migrateAddLoop_cons, if_pos hcont, hrest',
        filterConsNeg (fun x : Col => !(dict.map (fun y : Col => y.name)).contains x.name)
          c rest hpred]
    · have hcont : (dict.map (fun x => x.name)).contains c.name = false := by
        simp [List.elem_eq_mem, h]
      have hpred : (!(dict.map (fun x : Col => x.name)).contains c.name) = true := by
        simp only [hcont]; rfl
      have htab : c.table = none := hfresh c (by simp) h
      have hadd : addColumn selfId tname dict c =
          .ok (dict ++ [{ c with table := some selfId }], addColumnQ tname c) := by
        simp [addColumn, htab, List.elem_eq_mem, h]
      have hfresh' : ∀ x ∈ rest,
          x.name ∉ (dict ++ [{ c with table := some selfId }]).map
            (fun y : Col => y.name) →
          x.table = none := by
        intro x hx hnx
        refine hfresh x (List.mem_cons_of_mem _ hx) (fun hmem => hnx ?_)
        simp only [List.map_append, List.mem_append]
        exact Or.inl hmem
      have hrest' := ih (dict ++ [{ c with table := some selfId }]) hrest_nd hfresh'
      have hfilter : rest.filter (fun x =>
            !((dict ++ [{ c with table := some selfId }]).map
              (fun y : Col => y.name)).contains x.name) =
          rest.filter (fun x => !(dict.map (fun y : Col => y.name)).contains x.name) := by
        apply List.filter_congr
        intro x hx
        have hxn : x.name ≠ c.name := by
          intro hEq
          exact hc_rest (by rw [← hEq]; exact List.mem_map_of_mem (fun y : Col => y.name) hx)
        simp [List.elem_eq_mem, hxn]
      rw [hfilter] at hrest'
      have hcond : ¬((dict.map (fun x => x.name)).contains c.name = true) := by
        simp only [hcont]; decide
      rw [migrateAddLoop_cons, if_neg hcond, hadd]
      show Except.bind (migrateAddLoop selfId tname
          (dict ++ [{ c with table := some selfId }]) rest)
        (fun restEvents => Except.ok (addColumnQ tname c :: restEvents)) = _
      rw [hrest',
        filterConsPos (fun x : Col => !(dict.map (fun y : Col => y.name)).contains x.name)
          c rest hpred]
      rfl

/-- **C4**: for a table tracking columns `tracked` and a target column list
with distinct names whose genuinely new columns are unbound, `migrate`
issues exactly one `ALTER TABLE … DROP COLUMN` statement per tracked
column whose name is missing from the target (in declaration order),
followed by exactly one `ALTER TABLE … ADD COLUMN` statement per target
column whose name is not tracked (in target order), and no statement for
columns present in both. -/
theorem C4_migrate_statements (selfId : Nat) (tname : String)
    (tracked target : List Col)
    (hT : (target.map (fun c => c.name)).Nodup)
    (hOwn : ∀ c ∈ tracked, c.table = some selfId)
    (hFresh : ∀ c ∈ target, c.name ∉ tracked.map (fun x => x.name) → c.table = none) :
    migrate selfId tname tracked target = .ok
      ((tracked.filter
          (fun c => !(target.map (fun x => x.name)).contains c.name)).map
        (dropColumnQ tname)
        ++ (target.filter
          (fun c => !(tracked.map (fun x => x.name)).contains c.name)).map
        (addColumnQ tname)) := by
  unfold migrate
  rw [pyDictOfCols_eq_self target hT]
  show Except.bind (migrateDropLoop selfId tname (target.map (fun c => c.name)) tracked)
    (fun drops => Except.bind (migrateAddLoop selfId tname tracked target)
      (fun adds => Except.ok (drops ++ adds))) = _
  rw [migrateDropLoop_eq selfId tname (target.map (fun c => c.name)) tracked hOwn,
    migrateAddLoop_eq selfId tname target tracked hT hFresh]
  rfl

/-- **C4** witness: migrating `old_table(a, b)` to columns `{a, c}` issues
exactly one `DROP COLUMN b` and one `ADD COLUMN c`, nothing touching
`a`. -/
theorem C4_migrate_statements_witness :
    (([colAInt, colCText].map (fun c => c.name)).Nodup
      ∧ (∀ c ∈ exSourceTable.cols, c.table = some 1)
      ∧ (∀ c ∈ [colAInt, colCText],
          c.name ∉ exSourceTable.cols.map (fun x => x.name) → c.table = none))
    ∧ migrate 1 "public.old_table" exSourceTable.cols [colAInt, colCText] = .ok
      ((exSourceTable.cols.filter
          (fun c => !([colAInt, colCText].map (fun x => x.name)).contains c.name)).map
        (dropColumnQ "public.old_table")
        ++ ([colAInt, colCText].filter
          (fun c => !(exSourceTable.cols.map (fun x => x.name)).contains c.name)).map
        (addColumnQ "public.old_table"))
    ∧ migrate 1 "public.old_table" exSourceTable.cols [colAInt, colCText] = .ok
      ["ALTER TABLE public.old_table DROP COLUMN b",
       "ALTER TABLE public.old_table ADD COLUMN c TEXT"] :=
  ⟨⟨by decide, by decide, by decide⟩,
   C4_migrate_statements 1 "public.old_table" exSourceTable.cols [colAInt, colCText]
     (by decide) (by decide) (by decide), rfl⟩

/-- `Option.map` distributes over `Option.or`. -/
theorem optionMapOr {α β : Type} (f : α → β) (x y : Option α) :
    (x.or y).map f = (x.map f).or (y.map f) := by
  cases x <;> rfl

/-- `find?` over a cons whose head satisfies the predicate. -/
theorem findConsPos {α : Type} (p : α → Bool) (a : α) (l : List α)
    (h : p a = true) : (a :: l).find? p = some a := by
  simp [List.find?, h]

/-- `find?` over a cons whose head fails the predicate. -/
theorem findConsNeg {α : Type} (p : α → Bool) (a : α) (l : List α)
    (h : p a = false) : (a :: l).find? p = l.find? p := by
  simp [List.find?, h]

/-- Replacing the entry of a key `k` does not change lookups of other
keys. -/
theorem findMapReplaceNe (k : PyType) (v : SQLTypeCls) (t : PyType) (ht : t ≠ k) :
    ∀ (d : List (PyType × SQLTypeCls)),
    ((d.map (fun x => if x.1 = k then (k, v) else x)).find?
        (fun p => p.1 == t)).map (fun p => p.2) =
      (d.find? (fun p => p.1 == t)).map (fun p => p.2) := by
  intro d
  induction d with
  | nil => rfl
  | cons a rest ih =>
    by_cases ha : a.1 = k
    · have h1 : (if a.1 = k then (k, v) else a) = (k, v) := if_pos ha
      have h2 : (k == t) = false := beq_eq_false_iff_ne.mpr (fun hEq => ht hEq.symm)
      have h3 : (a.1 == t) = false := by rw [ha]; exact h2
      rw [List.map_cons, h1,
        findConsNeg (fun p : PyType × SQLTypeCls => p.1 == t) (k, v) _ h2,
        findConsNeg (fun p : PyType × SQLTypeCls => p.1 == t) a _ h3, ih]
    · have h1 : (if a.1 = k then (k, v) else a) = a := if_neg ha
      by_cases hat : a.1 = t
      · have h4 : (a.1 == t) = true := beq_iff_eq.mpr hat
        rw [List.map_cons, h1,
          findConsPos (fun p : PyType × SQLTypeCls => p.1 == t) a _ h4,
          findConsPos (fun p : PyType × SQLTypeCls => p.1 == t) a _ h4]
      · have h4 : (a.1 == t) = false := beq_eq_false_iff_ne.mpr hat
        rw [List.map_cons, h1,
          findConsNeg (fun p : PyType × SQLTypeCls => p.1 == t) a _ h4,
          findConsNeg (fun p : PyType × SQLTypeCls => p.1 == t) a _ h4, ih]

/-- After replacing the entry of a present key `k`, looking `k` up yields
the new value. -/
theorem findMapReplaceEq (k : PyType) (v : SQLTypeCls) :
    ∀ (d : List (PyType × SQLTypeCls)), k ∈ d.map (fun x => x.1) →
    ((d.map (fun x => if x.1 = k then (k, v) else x)).find?
        (fun p => p.1 == k)).map (fun p => p.2) = some v := by
  intro d
  induction d with
  | nil => intro h; simp at h
  | cons a rest ih =>
    intro hmem
    by_cases ha : a.1 = k
    · have h1 : (if a.1 = k then (k, v) else a) = (k, v) := if_pos ha
      rw [List.map_cons, h1,
        findConsPos (fun p : PyType × SQLTypeCls => p.1 == k) (k, v) _
          (beq_iff_eq.mpr rfl)]
      rfl
    · have h1 : (if a.1 = k then (k, v) else a) = a := if_neg ha
      have hmem' : k ∈ rest.map (fun x => x.1) := by
        rw [List.map_cons] at hmem
        rcases List.mem_cons.mp hmem with h | h
        · exact absurd h.symm ha
        · exact h
      rw [List.map_cons, h1,
        findConsNeg (fun p : PyType × SQLTypeCls => p.1 == k) a _
          (beq_eq_false_iff_ne.mpr ha)]
      exact ih hmem'

/-- Lookup after a Python dictionary assignment: the assigned key maps to
the new value, every other key is unchanged. -/
theorem dictAssignPyType_lookup (d : List (PyType × SQLTypeCls)) (k : PyType)
    (v : SQLTypeCls) (t : PyType) :
    ((dictAssignPyType d k v).find? (fun p => p.1 == t)).map (fun p => p.2) =
      if t = k then some v
      else (d.find? (fun p => p.1 == t)).map (fun p => p.2) := by
  unfold dictAssignPyType
  by_cases hc : k ∈ d.map (fun x => x.1)
  · have hcont : (d.map (fun x => x.1)).contains k = true := by
      simp [List.elem_eq_mem, hc]
    rw [if_pos hcont]
    by_cases ht : t = k
    · rw [if_pos ht, ht]
      exact findMapReplaceEq k v d hc
    · rw [if_neg ht]
      exact findMapReplaceNe k v t ht d
  · have hcont : ¬((d.map (fun x => x.1)).contains k = true) := by
      simp [List.elem_eq_mem, hc]
    rw [if_neg hcont, List.find?_append, optionMapOr]
    by_cases ht : t = k
    · rw [if_pos ht]
      have hnone : d.find? (fun p => p.1 == t) = none := by
        rw [List.find?_eq_none]
        intro x hx
        simp only [beq_iff_eq]
        intro hEq
        exact hc (ht ▸ hEq ▸ List.mem_map_of_mem (fun x => x.1) hx)
      have hone : ([(k, v)].find? (fun p => p.1 == t)) = some (k, v) :=
        findConsPos (fun p : PyType × SQLTypeCls => p.1 == t) (k, v) []
          (beq_iff_eq.mpr ht.symm)
      rw [hnone, hone]
      rfl
    · rw [if_neg ht]
      have hone : ([(k, v)].find? (fun p => p.1 == t)) = none :=
        findConsNeg (fun p : PyType × SQLTypeCls => p.1 == t) (k, v) []
          (beq_eq_false_iff_ne.mpr (fun hEq => ht hEq.symm))
      rw [hone]
      simp

/-- The registration fold builds exactly the "latest default wins"
dictionary: looking a type up after folding a registration list equals the
most recent matching default registration, falling back to the initial
dictionary. -/
theorem foldl_defaults_lookup :
    ∀ (l : List (SQLTypeCls × Bool)) (d : List (PyType × SQLTypeCls)) (t : PyType),
    (((l.foldl (fun d p => if p.2 then dictAssignPyType d p.1.pyType p.1 else d)
        d).find? (fun p => p.1 == t)).map (fun p => p.2)) =
      ((l.reverse.find? (fun p => p.2 && p.1.pyType == t)).map (fun p => p.1)).or
        ((d.find? (fun p => p.1 == t)).map (fun p => p.2)) := by
  intro l
  induction l with
  | nil => intro d t; simp
  | cons p rest ih =>
    intro d t
    rw [List.foldl_cons, ih, List.reverse_cons, List.find?_append, optionMapOr,
      Option.or_assoc]
    congr 1
    by_cases hp : p.2 = true
    · by_cases ht : t = p.1.pyType
      · have hfind : ([p].find? (fun q => q.2 && q.1.pyType == t)) = some p :=
          findConsPos (fun q : SQLTypeCls × Bool => q.2 && q.1.pyType == t) p []
            (by show (p.2 && (p.1.pyType == t)) = true
                rw [hp, beq_iff_eq.mpr ht.symm]
                rfl)
        rw [show (if p.2 = true then dictAssignPyType d p.1.pyType p.1 else d) =
            dictAssignPyType d p.1.pyType p.1 from if_pos hp,
          dictAssignPyType_lookup, if_pos ht, hfind]
        rfl
      · have hfind : ([p].find? (fun q => q.2 && q.1.pyType == t)) = none :=
          findConsNeg (fun q : SQLTypeCls × Bool => q.2 && q.1.pyType == t) p []
            (by show (p.2 && (p.1.pyType == t)) = false
                rw [hp, Bool.true_and]
                exact beq_eq_false_iff_ne.mpr (fun hEq => ht hEq.symm))
        rw [show (if p.2 = true then dictAssignPyType d p.1.pyType p.1 else d) =
            dictAssignPyType d p.1.pyType p.1 from if_pos hp,
          dictAssignPyType_lookup, if_neg ht, hfind]
        rfl
    · have hp2 : p.2 = false := by
        revert hp; cases p.2 <;> simp
      have hfind : ([p].find? (fun q => q.2 && q.1.pyType == t)) = none :=
        findConsNeg (fun q : SQLTypeCls × Bool => q.2 && q.1.pyType == t) p []
          (by show (p.2 && (p.1.pyType == t)) = false
              rw [hp2, Bool.false_and])
      rw [show (if p.2 = true then dictAssignPyType d p.1.pyType p.1 else d) = d
          from if_neg hp, hfind]
      rfl

/-- `SQLType.__defaults` lookup equals the most recent default
registration. -/
theorem sqlDefaults_eq_latestDefault (t : PyType) :
    sqlDefaults t = latestDefault t := by
  unfold sqlDefaults sqlDefaultsDict latestDefault
  rw [foldl_defaults_lookup registeredClasses [] t]
  simp

/-- **C7** (amended): for every native type that is not an enumeration,
`SQLType._from_type` returns the most recently registered default SQL type
when one exists, and raises `KeyError` (not the claimed
`UnknownTypeError`, which does not exist) when none is registered. -/
theorem C7_from_type_lookup (t : PyType) (hne : t.isEnumType = false) :
    (latestDefault t = none →
      sqlTypeFromType t = .error ⟨"KeyError", pyTypeName t⟩)
    ∧ ∀ s, latestDefault t = some s → sqlTypeFromType t = .ok s := by
  have hdef := sqlDefaults_eq_latestDefault t
  constructor
  · intro hnone
    unfold sqlTypeFromType
    rw [if_neg (by simp [hne]), hdef, hnone]
  · intro s hsome
    unfold sqlTypeFromType
    rw [if_neg (by simp [hne]), hdef, hsome]

/-- **C7** witness: `int` is not an enumeration, its most recent default
registration is the `Integer` class, and the lookup returns it. -/
theorem C7_from_type_lookup_witness :
    PyType.pyInt.isEnumType = false
    ∧ latestDefault PyType.pyInt =
        some ⟨"Integer", PyType.pyInt, "INTEGER"⟩
    ∧ sqlTypeFromType PyType.pyInt = .ok ⟨"Integer", PyType.pyInt, "INTEGER"⟩ :=
  ⟨rfl, rfl,
   (C7_from_type_lookup PyType.pyInt rfl).2 ⟨"Integer", PyType.pyInt, "INTEGER"⟩ rfl⟩

/-- Of two suffixes of the same list, the shorter is a suffix of the
longer. -/
theorem suffixOfSuffixLengthLe {l₁ l₂ l₃ : List Char} (h1 : l₁ <:+ l₃)
    (h2 : l₂ <:+ l₃) (hl : l₁.length ≤ l₂.length) : l₁ <:+ l₂ := by
  have p1 : l₁.reverse <+: l₃.reverse := List.reverse_prefix.mpr h1
  have p2 : l₂.reverse <+: l₃.reverse := List.reverse_prefix.mpr h2
  rcases List.prefix_or_prefix_of_prefix p1 p2 with h | h
  · exact List.reverse_prefix.mp h
  · have hlen : l₂.reverse.length = l₁.reverse.length := by
      have := h.length_le
      simp only [List.length_reverse] at this ⊢
      omega
    have : l₂.reverse = l₁.reverse := h.eq_of_length hlen
    have : l₂ = l₁ := by
      have := congrArg List.reverse this
      simpa using this
    rw [this]

/-- Strings with equal character lists are equal. -/
theorem stringExt (s t : String) (h : s.data = t.data) : s = t := by
  cases s
  cases t
  exact congrArg String.mk h

/-- A list is a Boolean suffix of anything it is appended to. -/
theorem isSuffixOfAppendSelf (a b : List Char) : b.isSuffixOf (a ++ b) = true :=
  List.isSuffixOf_iff_suffix.mpr (List.suffix_append a b)

/-- Prepending cannot create a new match for a suffix probe no longer than
the appended tail. -/
theorem isSuffixOfAppendOfLengthLe (a b c : List Char) (h : c.length ≤ b.length) :
    c.isSuffixOf (a ++ b) = c.isSuffixOf b := by
  by_cases hs : c <:+ b
  · rw [List.isSuffixOf_iff_suffix.mpr hs,
      List.isSuffixOf_iff_suffix.mpr (hs.trans (List.suffix_append a b))]
  · have h1 : c.isSuffixOf b = false :=
      Bool.eq_false_iff.mpr (fun hh => hs (List.isSuffixOf_iff_suffix.mp hh))
    have h2 : c.isSuffixOf (a ++ b) = false :=
      Bool.eq_false_iff.mpr (fun hh =>
        hs (suffixOfSuffixLengthLe (List.isSuffixOf_iff_suffix.mp hh)
          (List.suffix_append a b) h))
    rw [h1, h2]

/-- Unfolding equation of `rsplitAux` on a cons. -/
theorem rsplitAux_cons (sep : List Char) (c : Char) (rest : List Char) :
    rsplitAux sep (c :: rest) =
      (match rsplitAux sep rest with
      | some (pre, post) => some (c :: pre, post)
      | none =>
        if sep.isPrefixOf (c :: rest) then some ([], (c :: rest).drop sep.length)
        else none) := rfl

/-- A `__` separator never occurs in an underscore-free list. -/
theorem rsplitAuxNoSep : ∀ (kl : List Char), '_' ∉ kl →
    rsplitAux ['_', '_'] kl = none := by
  intro kl
  induction kl with
  | nil => intro _; rfl
  | cons c rest ih =>
    intro h
    have hc : ('_' : Char) ≠ c := fun hEq =>
      h (by rw [hEq]; exact List.mem_cons_self c rest)
    have hrest : '_' ∉ rest := fun hm => h (List.mem_cons_of_mem c hm)
    have hpre : (['_', '_'] : List Char).isPrefixOf (c :: rest) = false := by
      show (('_' == c) && (['_'] : List Char).isPrefixOf rest) = false
      rw [beq_eq_false_iff_ne.mpr hc]
      rfl
    rw [rsplitAux_cons, ih hrest]
    simp [hpre]

/-- Nor does it occur in such a list prefixed by one underscore. -/
theorem rsplitAuxOneSep (kl : List Char) (h : '_' ∉ kl) :
    rsplitAux ['_', '_'] ('_' :: kl) = none := by
  have hpre : (['_', '_'] : List Char).isPrefixOf ('_' :: kl) = false := by
    show (('_' == '_') && (['_'] : List Char).isPrefixOf kl) = false
    rw [show (('_' : Char) == '_') = true from rfl, Bool.true_and]
    cases kl with
    | nil => rfl
    | cons c rest =>
      have hc : ('_' : Char) ≠ c := fun hEq =>
        h (by rw [hEq]; exact List.mem_cons_self c rest)
      show (('_' == c) && (([] : List Char)).isPrefixOf rest) = false
      rw [beq_eq_false_iff_ne.mpr hc]
      rfl
  rw [rsplitAux_cons, rsplitAuxNoSep kl h]
  simp [hpre]

/-- Python `(col + "__" + k).rsplit("__", 1)` splits at the separator when
`k` is underscore-free: the rightmost occurrence of `__` is the separator
itself. -/
theorem rsplitAuxMain : ∀ (cl kl : List Char), '_' ∉ kl →
    rsplitAux ['_', '_'] (cl ++ '_' :: '_' :: kl) = some (cl, kl) := by
  intro cl kl h
  induction cl with
  | nil =>
    rw [List.nil_append, rsplitAux_cons, rsplitAuxOneSep kl h]
    have hpre : (['_', '_'] : List Char).isPrefixOf ('_' :: '_' :: kl) = true := by
      cases kl with
      | nil => rfl
      | cons c rest => rfl
    simp [hpre]
  | cons c cs ih =>
    rw [List.cons_append, rsplitAux_cons, ih]

/-- Character-list shape of `col ++ "__" ++ k`. -/
theorem strDataAppend3 (col k : String) :
    (col ++ "__" ++ k).data = col.data ++ '_' :: '_' :: k.data := by
  rw [String.data_append, String.data_append, List.append_assoc]
  rfl

/-- `col ++ "__" ++ k` ends with `__k`. -/
theorem pyEndsWithKeySelf (col k : String) :
    pyEndsWith (col ++ "__" ++ k) ("__" ++ k) = true := by
  unfold pyEndsWith
  rw [strDataAppend3,
    show ("__" ++ k).data = '_' :: '_' :: k.data from by
      rw [String.data_append]; rfl]
  exact isSuffixOfAppendSelf col.data ('_' :: '_' :: k.data)

/-- `col ++ "__" ++ k0` does not end with a different probe `__k` that is
no longer than `__k0`. -/
theorem pyEndsWithKeySkip (col k k0 : String)
    (hlen : ("__" ++ k).data.length ≤ ("__" ++ k0).data.length)
    (hfalse : ("__" ++ k).data.isSuffixOf ("__" ++ k0).data = false) :
    pyEndsWith (col ++ "__" ++ k0) ("__" ++ k) = false := by
  unfold pyEndsWith
  have hd : (col ++ "__" ++ k0).data = col.data ++ ("__" ++ k0).data := by
    rw [String.data_append, String.data_append, String.data_append,
      List.append_assoc]
  rw [hd, isSuffixOfAppendOfLengthLe _ _ _ hlen, hfalse]

/-- The Python `rsplit("__", 1)` of `col + "__" + k` for an
underscore-free operator key `k`. -/
theorem pyRsplitKey (col k : String) (h : '_' ∉ k.data) :
    pyRsplitOnce (col ++ "__" ++ k) "__" = some (col, k) := by
  unfold pyRsplitOnce
  rw [strDataAppend3, show ("__" : String).data = ['_', '_'] from rfl,
    rsplitAuxMain col.data k.data h]
  rfl

/-- A key built from a column that neither starts with `or_` nor is the
bare name `or` does not start with `or_` either. -/
theorem pyStartsWithOrAppend (col k : String)
    (hor : pyStartsWith col "or_" = false) (hne : col ≠ "or") :
    pyStartsWith (col ++ "__" ++ k) "or_" = false := by
  unfold pyStartsWith at hor ⊢
  rw [strDataAppend3]
  cases hdata : col.data with
  | nil =>
    rfl
  | cons c1 rest1 =>
    cases rest1 with
    | nil =>
      show (('o' == c1) && (('r' == '_')
        && (('_' == '_') && (([] : List Char)).isPrefixOf k.data))) = false
      rw [show (('r' : Char) == '_') = false from rfl, Bool.false_and,
        Bool.and_false]
    | cons c2 rest2 =>
      cases rest2 with
      | nil =>
        have hcol : ¬(c1 = 'o' ∧ c2 = 'r') := by
          rintro ⟨ha, hb⟩
          exact hne (stringExt col "or" (by rw [hdata, ha, hb]))
        show (('o' == c1) && (('r' == c2)
          && (('_' == '_') && (([] : List Char)).isPrefixOf ('_' :: k.data)))) = false
        cases hb1 : ('o' == c1) with
        | false => rw [Bool.false_and]
        | true =>
          cases hb2 : ('r' == c2) with
          | false =>
            rw [Bool.false_and, Bool.and_false]
          | true =>
            exact absurd ⟨(beq_iff_eq.mp hb1).symm, (beq_iff_eq.mp hb2).symm⟩ hcol
      | cons c3 cs =>
        rw [hdata, show ("or_" : String).data = ['o', 'r', '_'] from rfl] at hor
        rw [show ("or_" : String).data = ['o', 'r', '_'] from rfl]
        simp only [List.isPrefixOf, List.cons_append, List.isPrefixOf_nil_left,
          Bool.and_true] at hor ⊢
        exact hor

/-- **C9** (code bug): on a cached table with primary key `a`, even the
first `fetch_row(a=0)` raises `KeyError "a"`: the `CachedTable`
`fetch_row_where` override passes its own keyword dictionary — which holds
only `order_by` — to `get_cached`, whose primary-key extraction then looks
the key `a` up in that dictionary.  The uncached `fetch_row` on the same
input returns the row, so the cached read-through the claim describes
never happens. -/
theorem C9_cached_fetch_row_raises_key_error :
    cachedFetchRow exSourceTable exDb [] [("a", Val.vint 0)] none =
      Except.error ⟨"KeyError", "a"⟩
    ∧ fetchRow exSourceTable exDb [("a", Val.vint 0)] none =
      Except.ok (some [("a", Val.vint 0), ("b", Val.vint 2)]) :=
  ⟨rfl, rfl⟩


/-- A key whose `__<key>` suffix test fails is skipped by the operator loop. -/
theorem opFoldSkip (b : Bool) (key sym : String) (rest : List (String × String))
    (name op : String) (h : pyEndsWith name ("__" ++ key) = false) :
    opSuffixFold b ((key, sym) :: rest) name op = opSuffixFold b rest name op := by
  simp only [opSuffixFold, h]
  rfl

/-- When every remaining key fails its suffix test, the operator loop
returns the name and operator unchanged. -/
theorem opFoldSkipAll (b : Bool) (L : List (String × String)) (name op : String)
    (h : ∀ p ∈ L, pyEndsWith name ("__" ++ p.1) = false) :
    opSuffixFold b L name op = Except.ok (name, op) := by
  induction L with
  | nil => rfl
  | cons p rest ih =>
    rw [show p = (p.1, p.2) from rfl,
      opFoldSkip b p.1 p.2 rest name op (h p (List.mem_cons_self p rest))]
    exact ih (fun q hq => h q (List.mem_cons_of_mem p hq))

/-- A key whose suffix test succeeds is split off and resolved against
`NULL_OPERATORS` or `OPERATORS` according to the value's nullness. -/
theorem opFoldHit (b : Bool) (key sym : String) (rest : List (String × String))
    (col op : String) (hk : '_' ∉ key.data) :
    opSuffixFold b ((key, sym) :: rest) (col ++ "__" ++ key) op =
      (if b then
        match lookupStr NULL_OPERATORS key with
        | some op2 => opSuffixFold b rest col op2
        | none => Except.error ⟨"NameError", "Unknown null operator " ++ key ++ "."⟩
      else
        match lookupStr OPERATORS key with
        | some op2 => opSuffixFold b rest col op2
        | none => Except.error ⟨"NameError", "Unknown operator " ++ key ++ "."⟩) := by
  simp only [opSuffixFold, pyEndsWithKeySelf col key, pyRsplitKey col key hk]
  rw [if_pos trivial]

/-- Evaluation of one clause of `_build_where_clause` once the `or_` test,
the operator fold and the column lookup are known. -/
theorem whereStepOk (t : String) (cols : List (String × String)) (name0 : String)
    (v : Val) (i : Nat) (first : Bool) (res col2 : String × String)
    (hstart : pyStartsWith name0 "or_" = false)
    (hfold : opSuffixFold v.isNone OPERATORS name0
      (if v.isNone then "_NULL_EQ" else "=") = Except.ok res)
    (hfind : cols.find? (fun p => p.1 == res.1) = some col2) :
    whereStep t cols name0 v i first =
      Except.ok
        ((if first then [] else ["AND"]) ++
          (if res.2 = "_IN" then
            [res.1, "=", "any($" ++ natStr i ++ "::" ++ col2.2 ++ "[])"]
          else if res.2 = "_NULL_EQ" then [res.1, "IS NULL"]
          else if res.2 = "_NULL_NE" then [res.1, "IS NOT NULL"]
          else [res.1, res.2, "$" ++ natStr i]) ++
          (if first then [] else [")"]),
         if res.2 = "_IN" then i + 1
         else if res.2 = "_NULL_EQ" then i
         else if res.2 = "_NULL_NE" then i
         else i + 1) := by
  unfold whereStep
  rw [hstart]
  show Except.bind
      (opSuffixFold v.isNone OPERATORS name0 (if v.isNone then "_NULL_EQ" else "="))
      _ = _
  rw [hfold]
  show (match cols.find? (fun p => p.1 == res.1) with
    | none => (Except.error ⟨"NameError",
        "Unknown column " ++ res.1 ++ " in selectable " ++ t ++ "."⟩ :
        Except PyErr (List String × Nat))
    | some col =>
      Except.ok ((if first then [] else ["AND"]) ++
        (if res.2 = "_IN" then
          ([res.1, "=", "any($" ++ natStr i ++ "::" ++ col.2 ++ "[])"], i + 1)
        else if res.2 = "_NULL_EQ" then ([res.1, "IS NULL"], i)
        else if res.2 = "_NULL_NE" then ([res.1, "IS NOT NULL"], i)
        else ([res.1, res.2, "$" ++ natStr i], i + 1)).1 ++
        (if first then [] else [")"]),
        (if res.2 = "_IN" then
          ([res.1, "=", "any($" ++ natStr i ++ "::" ++ col.2 ++ "[])"], i + 1)
        else if res.2 = "_NULL_EQ" then ([res.1, "IS NULL"], i)
        else if res.2 = "_NULL_NE" then ([res.1, "IS NOT NULL"], i)
        else ([res.1, res.2, "$" ++ natStr i], i + 1)).2)) = _
  rw [hfind]
  by_cases h1 : res.2 = "_IN"
  · simp [h1]
  · by_cases h2 : res.2 = "_NULL_EQ"
    · simp [h1, h2]
    · by_cases h3 : res.2 = "_NULL_NE"
      · simp [h1, h2, h3]
      · simp [h1, h2, h3]

/-- A failing operator fold propagates its exception out of the clause. -/
theorem whereStepErr (t : String) (cols : List (String × String)) (name0 : String)
    (v : Val) (i : Nat) (first : Bool) (e : PyErr)
    (hstart : pyStartsWith name0 "or_" = false)
    (hfold : opSuffixFold v.isNone OPERATORS name0
      (if v.isNone then "_NULL_EQ" else "=") = Except.error e) :
    whereStep t cols name0 v i first = Except.error e := by
  unfold whereStep
  rw [hstart]
  show Except.bind
      (opSuffixFold v.isNone OPERATORS name0 (if v.isNone then "_NULL_EQ" else "="))
      _ = _
  rw [hfold]
  rfl

/-- String concatenation is associative. -/
theorem strAppendAssoc (a b c : String) : (a ++ b) ++ c = a ++ (b ++ c) := by
  apply stringExt
  simp [String.data_append, List.append_assoc]

/-- Space-joining two tokens. -/
theorem strCatPair (a b : String) : strCat [a, b] = a ++ " " ++ b := rfl

/-- Space-joining three tokens. -/
theorem strCatTriple (a b c : String) : strCat [a, b, c] = a ++ " " ++ b ++ " " ++ c := rfl

/-- For a one-entry keyword mapping, `_build_where_clause` is the
space-join of the single clause's tokens. -/
theorem buildWhereSingleOk (t : String) (cols : List (String × String))
    (name : String) (v : Val) (toks : List String) (j : Nat)
    (h : whereStep t cols name v 1 true = Except.ok (toks, j)) :
    buildWhereClause t cols [(name, v)] = Except.ok (strCat toks) := by
  unfold buildWhereClause buildWhereTokens whereLoop
  rw [h]
  show Except.map strCat (Except.ok ([] ++ (toks ++ []))) = _
  rw [List.nil_append, List.append_nil]
  rfl

/-- For a one-entry keyword mapping, a failing clause propagates its
exception out of `_build_where_clause`. -/
theorem buildWhereSingleErr (t : String) (cols : List (String × String))
    (name : String) (v : Val) (e : PyErr)
    (h : whereStep t cols name v 1 true = Except.error e) :
    buildWhereClause t cols [(name, v)] = Except.error e := by
  unfold buildWhereClause buildWhereTokens whereLoop
  rw [h]
  rfl

/-- Full scan of the operator loop over a key list split as
`pre ++ (k, sym) :: post`: the keys of `pre` fail their suffix test on
`col__k`, the hit at `k` strips the suffix, and the keys of `post` fail
their suffix test on the bare column name. -/
theorem opFoldScan (b : Bool) (pre post : List (String × String)) (k sym col : String)
    (hk : '_' ∉ k.data)
    (hpre : ∀ p ∈ pre, pyEndsWith (col ++ "__" ++ k) ("__" ++ p.1) = false)
    (hpost : ∀ p ∈ post, pyEndsWith col ("__" ++ p.1) = false)
    (op : String) :
    opSuffixFold b (pre ++ (k, sym) :: post) (col ++ "__" ++ k) op =
      (if b then
        match lookupStr NULL_OPERATORS k with
        | some op2 => Except.ok (col, op2)
        | none => Except.error ⟨"NameError", "Unknown null operator " ++ k ++ "."⟩
      else
        match lookupStr OPERATORS k with
        | some op2 => Except.ok (col, op2)
        | none => Except.error ⟨"NameError", "Unknown operator " ++ k ++ "."⟩) := by
  induction pre with
  | nil =>
    rw [List.nil_append, opFoldHit b k sym post col op hk]
    cases b with
    | true =>
      rw [if_pos rfl, if_pos rfl]
      cases hl : lookupStr NULL_OPERATORS k with
      | some op2 => exact opFoldSkipAll true post col op2 hpost
      | none => rfl
    | false =>
      rw [if_neg (by simp), if_neg (by simp)]
      cases hl : lookupStr OPERATORS k with
      | some op2 => exact opFoldSkipAll false post col op2 hpost
      | none => rfl
  | cons p rest ih =>
    rw [List.cons_append, show p = (p.1, p.2) from rfl,
      opFoldSkip b p.1 p.2 (rest ++ (k, sym) :: post) (col ++ "__" ++ k) op
        (hpre p (List.mem_cons_self p rest))]
    exact ih (fun q hq => hpre q (List.mem_cons_of_mem p hq))

/-- **C2**: over a declared column `col` (one that does not itself start
with `or_`, is not the bare name `or`, and carries no trailing operator
suffix), a single-entry WHERE-keyword mapping renders `col__eq=None` as
`col IS NULL`, `col__ne=None` as `col IS NOT NULL`, and `col__eq=v` or
bare `col=v` with a non-`None` `v` as `col = $1`; a `None` value with any
other operator suffix makes `_build_where_clause` raise `NameError`. -/
theorem C2_where_clause_rendering (t col colT : String) (v : Val)
    (hv : v.isNone = false)
    (hor : pyStartsWith col "or_" = false)
    (hne : col ≠ "or")
    (hsuf : ∀ p ∈ OPERATORS, pyEndsWith col ("__" ++ p.1) = false) :
    buildWhereClause t [(col, colT)] [(col ++ "__" ++ "eq", Val.vnone)]
        = Except.ok (col ++ " IS NULL")
    ∧ buildWhereClause t [(col, colT)] [(col ++ "__" ++ "ne", Val.vnone)]
        = Except.ok (col ++ " IS NOT NULL")
    ∧ buildWhereClause t [(col, colT)] [(col ++ "__" ++ "eq", v)]
        = Except.ok (col ++ " = $1")
    ∧ buildWhereClause t [(col, colT)] [(col, v)]
        = Except.ok (col ++ " = $1")
    ∧ ∀ k ∈ (["lt", "le", "ge", "gt", "in", "like", "ilike"] : List String),
        buildWhereClause t [(col, colT)] [(col ++ "__" ++ k, Val.vnone)]
          = Except.error ⟨"NameError", "Unknown null operator " ++ k ++ "."⟩ := by
  have hfind : ([(col, colT)] : List (String × String)).find?
      (fun p => p.1 == col) = some (col, colT) :=
    findConsPos _ _ _ (by simp)
  have hpostAll : ∀ (post : List (String × String)), post.Sublist OPERATORS →
      ∀ p ∈ post, pyEndsWith col ("__" ++ p.1) = false :=
    fun post hsub p hp => hsuf p (hsub.mem hp)
  refine ⟨?_, ?_, ?_, ?_, ?_⟩
  · have hfold : opSuffixFold Val.vnone.isNone OPERATORS (col ++ "__" ++ "eq")
        (if Val.vnone.isNone then "_NULL_EQ" else "=") = Except.ok (col, "_NULL_EQ") :=
      opFoldScan true []
        [("lt", "<"), ("le", "<="), ("ne", "<>"), ("ge", ">="),
         ("gt", ">"), ("in", "_IN"), ("like", "LIKE"), ("ilike", "ILIKE")]
        "eq" "=" col (by decide)
        (by intro p hp; exact absurd hp (List.not_mem_nil p))
        (by intro p hp; refine hsuf p ?_; fin_cases hp <;> decide) "_NULL_EQ"
    have hstep := whereStepOk t [(col, colT)] (col ++ "__" ++ "eq") Val.vnone 1 true
      (col, "_NULL_EQ") (col, colT) (pyStartsWithOrAppend col "eq" hor hne) hfold hfind
    have hb := buildWhereSingleOk t [(col, colT)] (col ++ "__" ++ "eq") Val.vnone
      [col, "IS NULL"] 1 hstep
    rw [hb, strCatPair, strAppendAssoc]
    rfl
  · have hfold : opSuffixFold Val.vnone.isNone OPERATORS (col ++ "__" ++ "ne")
        (if Val.vnone.isNone then "_NULL_EQ" else "=") = Except.ok (col, "_NULL_NE") :=
      opFoldScan true [("eq", "="), ("lt", "<"), ("le", "<=")]
        [("ge", ">="), ("gt", ">"), ("in", "_IN"), ("like", "LIKE"), ("ilike", "ILIKE")]
        "ne" "<>" col (by decide)
        (by intro p hp; fin_cases hp <;>
          exact pyEndsWithKeySkip col _ _ (by decide) (by decide))
        (by intro p hp; refine hsuf p ?_; fin_cases hp <;> decide) "_NULL_EQ"
    have hstep := whereStepOk t [(col, colT)] (col ++ "__" ++ "ne") Val.vnone 1 true
      (col, "_NULL_NE") (col, colT) (pyStartsWithOrAppend col "ne" hor hne) hfold hfind
    have hb := buildWhereSingleOk t [(col, colT)] (col ++ "__" ++ "ne") Val.vnone
      [col, "IS NOT NULL"] 1 hstep
    rw [hb, strCatPair, strAppendAssoc]
    rfl
  · have hfold : opSuffixFold v.isNone OPERATORS (col ++ "__" ++ "eq")
        (if v.isNone then "_NULL_EQ" else "=") = Except.ok (col, "=") := by
      rw [hv]
      exact opFoldScan false []
        [("lt", "<"), ("le", "<="), ("ne", "<>"), ("ge", ">="),
         ("gt", ">"), ("in", "_IN"), ("like", "LIKE"), ("ilike", "ILIKE")]
        "eq" "=" col (by decide)
        (by intro p hp; exact absurd hp (List.not_mem_nil p))
        (by intro p hp; refine hsuf p ?_; fin_cases hp <;> decide) "="
    have hstep := whereStepOk t [(col, colT)] (col ++ "__" ++ "eq") v 1 true
      (col, "=") (col, colT) (pyStartsWithOrAppend col "eq" hor hne) hfold hfind
    have hb := buildWhereSingleOk t [(col, colT)] (col ++ "__" ++ "eq") v
      [col, "=", "$1"] 2 hstep
    rw [hb, strCatTriple]
    simp only [strAppendAssoc]
    rfl
  · have hfold : opSuffixFold v.isNone OPERATORS col
        (if v.isNone then "_NULL_EQ" else "=") = Except.ok (col, "=") := by
      rw [hv]
      exact opFoldSkipAll false OPERATORS col "=" hsuf
    have hstep := whereStepOk t [(col, colT)] col v 1 true
      (col, "=") (col, colT) hor hfold hfind
    have hb := buildWhereSingleOk t [(col, colT)] col v
      [col, "=", "$1"] 2 hstep
    rw [hb, strCatTriple]
    simp only [strAppendAssoc]
    rfl
  · intro k hk
    fin_cases hk
    · exact buildWhereSingleErr t [(col, colT)] (col ++ "__" ++ "lt") Val.vnone _
        (whereStepErr t [(col, colT)] (col ++ "__" ++ "lt") Val.vnone 1 true _
          (pyStartsWithOrAppend col "lt" hor hne)
          (opFoldScan true [("eq", "=")]
            [("le", "<="), ("ne", "<>"), ("ge", ">="), ("gt", ">"),
             ("in", "_IN"), ("like", "LIKE"), ("ilike", "ILIKE")]
            "lt" "<" col (by decide)
            (by intro p hp; fin_cases hp <;>
              exact pyEndsWithKeySkip col _ _ (by decide) (by decide))
            (by intro p hp; refine hsuf p ?_; fin_cases hp <;> decide) "_NULL_EQ"))
    · exact buildWhereSingleErr t [(col, colT)] (col ++ "__" ++ "le") Val.vnone _
        (whereStepErr t [(col, colT)] (col ++ "__" ++ "le") Val.vnone 1 true _
          (pyStartsWithOrAppend col "le" hor hne)
          (opFoldScan true [("eq", "="), ("lt", "<")]
            [("ne", "<>"), ("ge", ">="), ("gt", ">"),
             ("in", "_IN"), ("like", "LIKE"), ("ilike", "ILIKE")]
            "le" "<=" col (by decide)
            (by intro p hp; fin_cases hp <;>
              exact pyEndsWithKeySkip col _ _ (by decide) (by decide))
            (by intro p hp; refine hsuf p ?_; fin_cases hp <;> decide) "_NULL_EQ"))
    · exact buildWhereSingleErr t [(col, colT)] (col ++ "__" ++ "ge") Val.vnone _
        (whereStepErr t [(col, colT)] (col ++ "__" ++ "ge") Val.vnone 1 true _
          (pyStartsWithOrAppend col "ge" hor hne)
          (opFoldScan true [("eq", "="), ("lt", "<"), ("le", "<="), ("ne", "<>")]
            [("gt", ">"), ("in", "_IN"), ("like", "LIKE"), ("ilike", "ILIKE")]
            "ge" ">=" col (by decide)
            (by intro p hp; fin_cases hp <;>
              exact pyEndsWithKeySkip col _ _ (by decide) (by decide))
            (by intro p hp; refine hsuf p ?_; fin_cases hp <;> decide) "_NULL_EQ"))
    · exact buildWhereSingleErr t [(col, colT)] (col ++ "__" ++ "gt") Val.vnone _
        (whereStepErr t [(col, colT)] (col ++ "__" ++ "gt") Val.vnone 1 true _
          (pyStartsWithOrAppend col "gt" hor hne)
          (opFoldScan true
            [("eq", "="), ("lt", "<"), ("le", "<="), ("ne", "<>"), ("ge", ">=")]
            [("in", "_IN"), ("like", "LIKE"), ("ilike", "ILIKE")]
            "gt" ">" col (by decide)
            (by intro p hp; fin_cases hp <;>
              exact pyEndsWithKeySkip col _ _ (by decide) (by decide))
            (by intro p hp; refine hsuf p ?_; fin_cases hp <;> decide) "_NULL_EQ"))
    · exact buildWhereSingleErr t [(col, colT)] (col ++ "__" ++ "in") Val.vnone _
        (whereStepErr t [(col, colT)] (col ++ "__" ++ "in") Val.vnone 1 true _
          (pyStartsWithOrAppend col "in" hor hne)
          (opFoldScan true
            [("eq", "="), ("lt", "<"), ("le", "<="), ("ne", "<>"), ("ge", ">="),
             ("gt", ">")]
            [("like", "LIKE"), ("ilike", "ILIKE")]
            "in" "_IN" col (by decide)
            (by intro p hp; fin_cases hp <;>
              exact pyEndsWithKeySkip col _ _ (by decide) (by decide))
            (by intro p hp; refine hsuf p ?_; fin_cases hp <;> decide) "_NULL_EQ"))
    · exact buildWhereSingleErr t [(col, colT)] (col ++ "__" ++ "like") Val.vnone _
        (whereStepErr t [(col, colT)] (col ++ "__" ++ "like") Val.vnone 1 true _
          (pyStartsWithOrAppend col "like" hor hne)
          (opFoldScan true
            [("eq", "="), ("lt", "<"), ("le", "<="), ("ne", "<>"), ("ge", ">="),
             ("gt", ">"), ("in", "_IN")]
            [("ilike", "ILIKE")]
            "like" "LIKE" col (by decide)
            (by intro p hp; fin_cases hp <;>
              exact pyEndsWithKeySkip col _ _ (by decide) (by decide))
            (by intro p hp; refine hsuf p ?_; fin_cases hp <;> decide) "_NULL_EQ"))
    · exact buildWhereSingleErr t [(col, colT)] (col ++ "__" ++ "ilike") Val.vnone _
        (whereStepErr t [(col, colT)] (col ++ "__" ++ "ilike") Val.vnone 1 true _
          (pyStartsWithOrAppend col "ilike" hor hne)
          (opFoldScan true
            [("eq", "="), ("lt", "<"), ("le", "<="), ("ne", "<>"), ("ge", ">="),
             ("gt", ">"), ("in", "_IN"), ("like", "LIKE")]
            ([] : List (String × String))
            "ilike" "ILIKE" col (by decide)
            (by intro p hp; fin_cases hp <;>
              exact pyEndsWithKeySkip col _ _ (by decide) (by decide))
            (by intro p hp; exact absurd hp (List.not_mem_nil p)) "_NULL_EQ"))

/-- Concrete instance of the C2 hypotheses and conclusions at
`col = "col"`. -/
theorem C2_where_clause_rendering_witness :
    ((Val.vint 7).isNone = false ∧ pyStartsWith "col" "or_" = false ∧ "col" ≠ "or"
      ∧ ∀ p ∈ OPERATORS, pyEndsWith "col" ("__" ++ p.1) = false)
    ∧ (buildWhereClause "public.t" [("col", "INTEGER")]
          [("col" ++ "__" ++ "eq", Val.vnone)] = Except.ok ("col" ++ " IS NULL")
      ∧ buildWhereClause "public.t" [("col", "INTEGER")]
          [("col" ++ "__" ++ "ne", Val.vnone)] = Except.ok ("col" ++ " IS NOT NULL")
      ∧ buildWhereClause "public.t" [("col", "INTEGER")]
          [("col" ++ "__" ++ "eq", Val.vint 7)] = Except.ok ("col" ++ " = $1")
      ∧ buildWhereClause "public.t" [("col", "INTEGER")]
          [("col", Val.vint 7)] = Except.ok ("col" ++ " = $1")
      ∧ ∀ k ∈ (["lt", "le", "ge", "gt", "in", "like", "ilike"] : List String),
          buildWhereClause "public.t" [("col", "INTEGER")]
            [("col" ++ "__" ++ k, Val.vnone)]
            = Except.error ⟨"NameError", "Unknown null operator " ++ k ++ "."⟩) :=
  ⟨⟨rfl, rfl, by decide, by decide⟩,
   C2_where_clause_rendering "public.t" "col" "INTEGER" (Val.vint 7) rfl rfl (by decide) (by decide)⟩


/-- `$`-counts add over token-list concatenation. -/
theorem dollarCountAppend (s r : List String) :
    dollarCount (s ++ r) = dollarCount s + dollarCount r := by
  simp [dollarCount, List.map_append]

/-- Decimal digit characters are never the placeholder marker. -/
theorem digitCharNoDollar (m : Nat) (h : m < 10) : digitChar m ≠ '$' := by
  interval_cases m <;> decide

/-- The decimal renderer emits no `$` character. -/
theorem natStrAuxNoDollar : ∀ (fuel n : Nat), '$' ∉ natStrAux fuel n := by
  intro fuel
  induction fuel with
  | zero => intro n; simp [natStrAux]
  | succ f ih =>
    intro n
    unfold natStrAux
    by_cases h : n < 10
    · rw [if_pos h]
      intro hm
      rcases List.mem_singleton.mp hm with hc
      exact digitCharNoDollar n h hc.symm
    · rw [if_neg h]
      intro hm
      rcases List.mem_append.mp hm with hl | hr
      · exact ih (n / 10) hl
      · rcases List.mem_singleton.mp hr with hc
        exact digitCharNoDollar (n % 10) (Nat.mod_lt n (by norm_num)) hc.symm

/-- A rendered number contains zero `$` characters. -/
theorem natStrCount (n : Nat) : (natStr n).data.count '$' = 0 :=
  List.count_eq_zero.mpr (natStrAuxNoDollar (n + 1) n)

/-- The parameter token `$<i>` contains exactly one `$`. -/
theorem tokenDollarsParam (i : Nat) : tokenDollars ("$" ++ natStr i) = 1 := by
  unfold tokenDollars
  rw [String.data_append, List.count_append, natStrCount]
  rfl

/-- The array-cast token of the `in` operator contains exactly one `$`
when the column type is `$`-free. -/
theorem tokenDollarsAny (i : Nat) (ty : String) (h : tokenDollars ty = 0) :
    tokenDollars ("any($" ++ natStr i ++ "::" ++ ty ++ "[])") = 1 := by
  unfold tokenDollars at h ⊢
  rw [String.data_append, String.data_append, String.data_append,
    String.data_append, List.count_append, List.count_append,
    List.count_append, List.count_append, natStrCount, h]
  rfl

/-- A placeholder mention survives prepending tokens. -/
theorem mentionsAppendRight (s r : List String) (j : Nat)
    (h : mentionsPlaceholder r j) : mentionsPlaceholder (s ++ r) j := by
  rcases h with h | ⟨ty, h⟩
  · exact Or.inl (List.mem_append_right s h)
  · exact Or.inr ⟨ty, List.mem_append_right s h⟩

/-- A placeholder mention survives appending tokens. -/
theorem mentionsAppendLeft (s r : List String) (j : Nat)
    (h : mentionsPlaceholder s j) : mentionsPlaceholder (s ++ r) j := by
  rcases h with h | ⟨ty, h⟩
  · exact Or.inl (List.mem_append_left r h)
  · exact Or.inr ⟨ty, List.mem_append_left r h⟩

/-- A successful dictionary lookup returns one of the stored values. -/
theorem lookupStrMem (table : List (String × String)) (k v : String)
    (h : lookupStr table k = some v) : ∃ q ∈ table, v = q.2 := by
  unfold lookupStr at h
  cases hf : table.find? (fun p => p.1 == k) with
  | none => rw [hf] at h; exact absurd h (by simp)
  | some q =>
    rw [hf] at h
    refine ⟨q, List.mem_of_find?_eq_some hf, ?_⟩
    simpa using h.symm

/-- The operator loop only ever returns the initial operator or a value
of the operator table it consulted. -/
theorem opFoldOpMem (b : Bool) :
    ∀ (L : List (String × String)) (name op : String) (res : String × String),
      opSuffixFold b L name op = Except.ok res →
      res.2 = op ∨ ∃ q ∈ (if b then NULL_OPERATORS else OPERATORS), res.2 = q.2 := by
  intro L
  induction L with
  | nil =>
    intro name op res h
    simp only [opSuffixFold, Except.ok.injEq] at h
    exact Or.inl (congrArg Prod.snd h.symm)
  | cons p rest ih =>
    intro name op res h
    obtain ⟨key, sym⟩ := p
    simp only [opSuffixFold] at h
    by_cases hc : pyEndsWith name ("__" ++ key) = true
    · rw [if_pos hc] at h
      cases hr : pyRsplitOnce name "__" with
      | none =>
        rw [hr] at h
        exact ih _ _ _ h
      | some pr =>
        rw [hr] at h
        obtain ⟨n2, k2⟩ := pr
        have h2 : (if b = true then
            match lookupStr NULL_OPERATORS k2 with
            | some op2 => opSuffixFold b rest n2 op2
            | none => (Except.error ⟨"NameError",
                "Unknown null operator " ++ k2 ++ "."⟩ :
                Except PyErr (String × String))
          else
            match lookupStr OPERATORS k2 with
            | some op2 => opSuffixFold b rest n2 op2
            | none => Except.error ⟨"NameError",
                "Unknown operator " ++ k2 ++ "."⟩) = Except.ok res := h
        clear h
        cases b with
        | true =>
          rw [if_pos rfl] at h2
          cases hl : lookupStr NULL_OPERATORS k2 with
          | none => rw [hl] at h2; exact absurd h2 (by simp)
          | some op2 =>
            rw [hl] at h2
            rcases ih _ _ _ h2 with heq | hmem
            · exact Or.inr (by
                rw [if_pos rfl]
                obtain ⟨q, hq, hv⟩ := lookupStrMem NULL_OPERATORS k2 op2 hl
                exact ⟨q, hq, heq.trans hv⟩)
            · exact Or.inr hmem
        | false =>
          rw [if_neg (by simp)] at h2
          cases hl : lookupStr OPERATORS k2 with
          | none => rw [hl] at h2; exact absurd h2 (by simp)
          | some op2 =>
            rw [hl] at h2
            rcases ih _ _ _ h2 with heq | hmem
            · exact Or.inr (by
                rw [if_neg (by simp)]
                obtain ⟨q, hq, hv⟩ := lookupStrMem OPERATORS k2 op2 hl
                exact ⟨q, hq, heq.trans hv⟩)
            · exact Or.inr hmem
    · rw [if_neg hc] at h
      exact ih _ _ _ h

/-- `bind` on a successful `Except` computation applies the continuation. -/
theorem exceptBindOk {ε α β : Type} (a : α) (f : α → Except ε β) :
    bind (Except.ok a) f = f a := rfl

/-- `bind` on a failed `Except` computation propagates the exception. -/
theorem exceptBindErr {ε α β : Type} (e : ε) (f : α → Except ε β) :
    bind (Except.error e : Except ε α) f = Except.error e := rfl

/-- The empty token list has no placeholders. -/
theorem dollarCountNil : dollarCount [] = 0 := rfl

/-- `$`-count of a token cons. -/
theorem dollarCountCons (a : String) (l : List String) :
    dollarCount (a :: l) = tokenDollars a + dollarCount l := by
  simp [dollarCount]

/-- Placeholder accounting for the tail of one clause of
`_build_where_clause` (after the `or_` prefix handling): a `None` value
consumes no parameter index and renders no `$`, a non-`None` value
consumes exactly one index, renders exactly one `$`, and mentions `$<i>`. -/
theorem whereTailSpec (t : String) (cols : List (String × String)) (nm : String)
    (b : Bool) (i : Nat) (stoks : List String) (i2 : Nat)
    (sep close : List String)
    (hcols : ∀ p ∈ cols, tokenDollars p.1 = 0 ∧ tokenDollars p.2 = 0)
    (hsep : dollarCount sep = 0) (hclose : dollarCount close = 0)
    (h : bind (opSuffixFold b OPERATORS nm (if b = true then "_NULL_EQ" else "="))
      (fun nameOp =>
        match List.find? (fun p => p.1 == nameOp.1) cols with
        | none => Except.error ⟨"NameError",
            "Unknown column " ++ nameOp.1 ++ " in selectable " ++ t ++ "."⟩
        | some col =>
          Except.ok
            (sep ++
              (if nameOp.2 = "_IN" then
                  ([nameOp.1, "=", "any($" ++ natStr i ++ "::" ++ col.2 ++ "[])"],
                    i + 1)
                else if nameOp.2 = "_NULL_EQ" then ([nameOp.1, "IS NULL"], i)
                else if nameOp.2 = "_NULL_NE" then ([nameOp.1, "IS NOT NULL"], i)
                else ([nameOp.1, nameOp.2, "$" ++ natStr i], i + 1)).1 ++
              close,
              (if nameOp.2 = "_IN" then
                  ([nameOp.1, "=", "any($" ++ natStr i ++ "::" ++ col.2 ++ "[])"],
                    i + 1)
                else if nameOp.2 = "_NULL_EQ" then ([nameOp.1, "IS NULL"], i)
                else if nameOp.2 = "_NULL_NE" then ([nameOp.1, "IS NOT NULL"], i)
                else ([nameOp.1, nameOp.2, "$" ++ natStr i], i + 1)).2))
      = Except.ok (stoks, i2)) :
    (b = true → i2 = i ∧ dollarCount stoks = 0)
    ∧ (b = false → i2 = i + 1 ∧ dollarCount stoks = 1
        ∧ mentionsPlaceholder stoks i) := by
  cases hf : opSuffixFold b OPERATORS nm (if b = true then "_NULL_EQ" else "=") with
  | error e =>
    rw [hf] at h
    exact absurd ((exceptBindErr _ _).symm.trans h) (by simp)
  | ok res =>
    rw [hf] at h
    simp only [exceptBindOk] at h
    cases hfind : List.find? (fun p => p.1 == res.1) cols with
    | none =>
      rw [hfind] at h
      exact absurd h (by simp)
    | some col2 =>
      rw [hfind] at h
      simp only [Except.ok.injEq, Prod.mk.injEq] at h
      obtain ⟨h1, h2⟩ := h
      have hn : col2.1 = res.1 := by
        have := List.find?_some hfind
        simpa using this
      have hname : tokenDollars res.1 = 0 := by
        have := (hcols col2 (List.mem_of_find?_eq_some hfind)).1
        rwa [hn] at this
      have hty : tokenDollars col2.2 = 0 :=
        (hcols col2 (List.mem_of_find?_eq_some hfind)).2
      have hmem := opFoldOpMem b OPERATORS nm
        (if b = true then "_NULL_EQ" else "=") res hf
      constructor
      · intro hb
        subst hb
        rw [if_pos rfl] at hmem
        have hres : res.2 = "_NULL_EQ" ∨ res.2 = "_NULL_NE" := by
          rcases hmem with he | ⟨q, hq, he⟩
          · exact Or.inl he
          · fin_cases hq
            · exact Or.inl he
            · exact Or.inr he
        rcases hres with h0 | h0
        · rw [h0, if_neg (by decide), if_pos rfl] at h1 h2
          refine ⟨h2.symm, ?_⟩
          rw [← h1, dollarCountAppend, dollarCountAppend, hsep, hclose,
            dollarCountCons, dollarCountCons, dollarCountNil, hname]
          decide
        · rw [h0, if_neg (by decide), if_neg (by decide), if_pos rfl] at h1 h2
          refine ⟨h2.symm, ?_⟩
          rw [← h1, dollarCountAppend, dollarCountAppend, hsep, hclose,
            dollarCountCons, dollarCountCons, dollarCountNil, hname]
          decide
      · intro hb
        subst hb
        rw [if_neg (by simp)] at hmem
        have hopd : tokenDollars res.2 = 0
            ∧ res.2 ≠ "_NULL_EQ" ∧ res.2 ≠ "_NULL_NE" := by
          rcases hmem with he | ⟨q, hq, he⟩
          · rw [he]
            exact ⟨by decide, by decide, by decide⟩
          · fin_cases hq <;> rw [he] <;>
              exact ⟨by decide, by decide, by decide⟩
        by_cases hin : res.2 = "_IN"
        · rw [hin, if_pos rfl] at h1 h2
          refine ⟨h2.symm, ?_, ?_⟩
          · rw [← h1, dollarCountAppend, dollarCountAppend, hsep, hclose,
              dollarCountCons, dollarCountCons, dollarCountCons,
              dollarCountNil, hname, tokenDollarsAny i col2.2 hty]
            decide
          · rw [← h1]
            refine mentionsAppendLeft _ _ _ (mentionsAppendRight _ _ _ ?_)
            exact Or.inr ⟨col2.2, by simp⟩
        · rw [if_neg hin, if_neg hopd.2.1, if_neg hopd.2.2] at h1 h2
          refine ⟨h2.symm, ?_, ?_⟩
          · rw [← h1, dollarCountAppend, dollarCountAppend, hsep, hclose,
              dollarCountCons, dollarCountCons, dollarCountCons,
              dollarCountNil, hname, hopd.1, tokenDollarsParam i]
          · rw [← h1]
            refine mentionsAppendLeft _ _ _ (mentionsAppendRight _ _ _ ?_)
            exact Or.inl (by simp)

/-- Placeholder accounting for one full clause of `_build_where_clause`. -/
theorem whereStepSpec (t : String) (cols : List (String × String)) (name0 : String)
    (v : Val) (i : Nat) (first : Bool) (stoks : List String) (i2 : Nat)
    (hcols : ∀ p ∈ cols, tokenDollars p.1 = 0 ∧ tokenDollars p.2 = 0)
    (h : whereStep t cols name0 v i first = Except.ok (stoks, i2)) :
    (v.isNone = true → i2 = i ∧ dollarCount stoks = 0)
    ∧ (v.isNone = false → i2 = i + 1 ∧ dollarCount stoks = 1
        ∧ mentionsPlaceholder stoks i) := by
  unfold whereStep at h
  by_cases hs : pyStartsWith name0 "or_" = true
  · rw [if_pos hs] at h
    cases first with
    | true =>
      rw [if_pos rfl] at h
      exact absurd ((exceptBindErr _ _).symm.trans h) (by simp)
    | false =>
      rw [if_neg (by simp)] at h
      simp only [exceptBindOk] at h
      exact whereTailSpec t cols (pyDrop name0 3) v.isNone i stoks i2
        ["OR"] [")"] hcols (by decide) (by decide) h
  · rw [if_neg hs] at h
    simp only [exceptBindOk] at h
    exact whereTailSpec t cols name0 v.isNone i stoks i2
      (if first = true then [] else ["AND"])
      (if first = true then [] else [")"])
      hcols (by cases first <;> decide) (by cases first <;> decide) h

/-- Loop invariant of the keyword loop of `_build_where_clause`: the
rendered tokens hold one `$` per non-`None` value, and the clause of the
`n`-th keyword (when non-`None`) mentions the placeholder numbered by the
count of earlier non-`None` values, offset by the starting index. -/
theorem whereLoopSpec (t : String) (cols : List (String × String))
    (hcols : ∀ p ∈ cols, tokenDollars p.1 = 0 ∧ tokenDollars p.2 = 0) :
    ∀ (vals : List (String × Val)) (i : Nat) (first : Bool) (toks : List String),
      whereLoop t cols vals i first = Except.ok toks →
      dollarCount toks = (vals.filter (fun q => !q.2.isNone)).length
      ∧ ∀ (n : Nat) (hn : n < vals.length),
          (vals.get ⟨n, hn⟩).2.isNone = false →
          mentionsPlaceholder toks
            (i + ((vals.take n).filter (fun q => !q.2.isNone)).length) := by
  intro vals
  induction vals with
  | nil =>
    intro i first toks h
    simp only [whereLoop, Except.ok.injEq] at h
    subst h
    refine ⟨rfl, ?_⟩
    intro n hn
    exact absurd hn (by simp)
  | cons pv rest ih =>
    intro i first toks h
    obtain ⟨name, v⟩ := pv
    simp only [whereLoop] at h
    cases hsv : whereStep t cols name v i first with
    | error e =>
      rw [hsv] at h
      exact absurd ((exceptBindErr _ _).symm.trans h) (by simp)
    | ok si =>
      obtain ⟨stoks, i2⟩ := si
      rw [hsv] at h
      simp only [exceptBindOk] at h
      cases hl : whereLoop t cols rest i2 false with
      | error e =>
        rw [hl] at h
        exact absurd ((exceptBindErr _ _).symm.trans h) (by simp)
      | ok rtoks =>
        rw [hl] at h
        simp only [exceptBindOk, Except.ok.injEq] at h
        subst h
        have spec := whereStepSpec t cols name v i first stoks i2 hcols hsv
        have ihr := ih i2 false rtoks hl
        cases hv : v.isNone with
        | true =>
          obtain ⟨hi2, hd⟩ := spec.1 hv
          constructor
          · rw [dollarCountAppend, hd, ihr.1, Nat.zero_add,
              filterConsNeg (fun q => !q.2.isNone) (name, v) rest (by simp [hv])]
          · intro n hn hnn
            cases n with
            | zero => exact absurd hnn (by simp [hv])
            | succ m =>
              have hm' : m < rest.length := Nat.succ_lt_succ_iff.mp hn
              have hmem := ihr.2 m hm' hnn
              rw [List.take_succ_cons,
                filterConsNeg (fun q => !q.2.isNone) (name, v) (rest.take m)
                  (by simp [hv])]
              rw [hi2] at hmem
              exact mentionsAppendRight stoks rtoks _ hmem
        | false =>
          obtain ⟨hi2, hd, hmen⟩ := spec.2 hv
          constructor
          · rw [dollarCountAppend, hd, ihr.1,
              filterConsPos (fun q => !q.2.isNone) (name, v) rest (by simp [hv]),
              List.length_cons]
            omega
          · intro n hn hnn
            cases n with
            | zero =>
              simp only [List.take_zero, List.filter_nil, List.length_nil,
                Nat.add_zero]
              exact mentionsAppendLeft stoks rtoks i hmen
            | succ m =>
              have hm' : m < rest.length := Nat.succ_lt_succ_iff.mp hn
              have hmem := ihr.2 m hm' hnn
              rw [List.take_succ_cons,
                filterConsPos (fun q => !q.2.isNone) (name, v) (rest.take m)
                  (by simp [hv]),
                List.length_cons]
              have harith : i + (((rest.take m).filter
                  (fun q => !q.2.isNone)).length + 1)
                  = i2 + ((rest.take m).filter (fun q => !q.2.isNone)).length := by
                omega
              rw [harith]
              exact mentionsAppendRight stoks rtoks _ hmem

/-- The element at position `n` of a list, when it satisfies the filter
predicate, appears in the filtered list at the index given by the number
of earlier satisfying elements. -/
theorem filterIndex {α : Type} (pred : α → Bool) :
    ∀ (l : List α) (n : Nat) (h : n < l.length),
      pred (l.get ⟨n, h⟩) = true →
      (l.filter pred).get? (((l.take n).filter pred).length)
        = some (l.get ⟨n, h⟩) := by
  intro l
  induction l with
  | nil =>
    intro n h
    exact absurd h (by simp)
  | cons a rest ih =>
    intro n h hp
    cases n with
    | zero =>
      rw [List.take_zero, List.filter_nil, List.length_nil,
        filterConsPos pred a rest hp]
      rfl
    | succ m =>
      have hm : m < rest.length := Nat.succ_lt_succ_iff.mp h
      rw [List.take_succ_cons]
      cases hpa : pred a with
      | true =>
        rw [filterConsPos pred a (rest.take m) hpa, List.length_cons,
          filterConsPos pred a rest hpa, List.get?_cons_succ]
        exact ih m hm hp
      | false =>
        rw [filterConsNeg pred a (rest.take m) hpa,
          filterConsNeg pred a rest hpa]
        exact ih m hm hp

/-- The positional arguments passed by `fetch`/`fetch_row`/`delete` are
the values of the non-`None` entries in insertion order. -/
theorem fetchArgsEq (values : List (String × Val)) :
    fetchArgs values
      = (values.filter (fun q => !q.2.isNone)).map (fun q => q.2) := by
  unfold fetchArgs
  rw [List.filter_map]
  rfl

/-- The grouping-parenthesis prefix contains no `$`. -/
theorem preTokensNoDollar (values : List (String × Val)) :
    dollarCount (if values.length > 1 then
      [String.mk (List.replicate (values.length - 1) '(')] else []) = 0 := by
  by_cases h : values.length > 1
  · rw [if_pos h]
    simp [dollarCount, tokenDollars, List.count_replicate]
  · rw [if_neg h]
    rfl

/-- **C10**: whenever `_build_where_clause` succeeds (over dollar-free
column names and types), the rendered tokens contain exactly one `$`
placeholder per non-`None` keyword value; the `n`-th keyword, when
non-`None`, mentions the placeholder numbered `1 +` (count of earlier
non-`None` values) — so the numbering is consecutive in insertion order
restricted to non-`None` values — and the argument tuple that `fetch`,
`fetch_row` and `delete` pass binds exactly that placeholder position to
that keyword's value. -/
theorem C10_placeholder_binding (t : String) (cols : List (String × String))
    (values : List (String × Val)) (toks : List String)
    (hcols : ∀ p ∈ cols, tokenDollars p.1 = 0 ∧ tokenDollars p.2 = 0)
    (hok : buildWhereTokens t cols values = Except.ok toks) :
    dollarCount toks = (fetchArgs values).length
    ∧ ∀ (n : Nat) (hn : n < values.length),
        (values.get ⟨n, hn⟩).2.isNone = false →
        mentionsPlaceholder toks (placeholderIndex values n)
        ∧ (fetchArgs values).get? (placeholderIndex values n - 1)
            = some (values.get ⟨n, hn⟩).2 := by
  have hok2 : bind (whereLoop t cols values 1 true)
      (fun body => Except.ok
        ((if values.length > 1 then
          [String.mk (List.replicate (values.length - 1) '(')] else [])
          ++ body)) = Except.ok toks := hok
  cases hl : whereLoop t cols values 1 true with
  | error e =>
    rw [hl] at hok2
    exact absurd ((exceptBindErr _ _).symm.trans hok2) (by simp)
  | ok body =>
    rw [hl] at hok2
    simp only [exceptBindOk, Except.ok.injEq] at hok2
    subst hok2
    have spec := whereLoopSpec t cols hcols values 1 true body hl
    constructor
    · rw [dollarCountAppend, preTokensNoDollar, Nat.zero_add, spec.1,
        fetchArgsEq, List.length_map]
    · intro n hn hnn
      constructor
      · exact mentionsAppendRight _ body _ (spec.2 n hn hnn)
      · have hidx : placeholderIndex values n - 1
            = ((values.take n).filter (fun q => !q.2.isNone)).length := by
          unfold placeholderIndex
          omega
        rw [hidx, fetchArgsEq, List.get?_map,
          filterIndex (fun q => !q.2.isNone) values n hn
            (by show (!(values.get ⟨n, hn⟩).2.isNone) = true; rw [hnn]; rfl)]
        rfl

/-- Concrete instance of the C10 hypotheses and conclusions on a
three-keyword mapping with one `None` value. -/
theorem C10_placeholder_binding_witness :
    ((∀ p ∈ ([("a", "INTEGER"), ("b", "TEXT")] : List (String × String)),
        tokenDollars p.1 = 0 ∧ tokenDollars p.2 = 0)
      ∧ buildWhereTokens "public.t" [("a", "INTEGER"), ("b", "TEXT")]
          [("a__eq", Val.vnone), ("b", Val.vint 5), ("a", Val.vint 3)]
        = Except.ok ["((", "a", "IS NULL", "AND", "b", "=", "$1", ")",
            "AND", "a", "=", "$2", ")"])
    ∧ (dollarCount ["((", "a", "IS NULL", "AND", "b", "=", "$1", ")",
          "AND", "a", "=", "$2", ")"]
        = (fetchArgs [("a__eq", Val.vnone), ("b", Val.vint 5),
            ("a", Val.vint 3)]).length
      ∧ ∀ (n : Nat)
          (hn : n < ([("a__eq", Val.vnone), ("b", Val.vint 5),
            ("a", Val.vint 3)] : List (String × Val)).length),
          (([("a__eq", Val.vnone), ("b", Val.vint 5),
            ("a", Val.vint 3)] : List (String × Val)).get ⟨n, hn⟩).2.isNone
            = false →
          mentionsPlaceholder ["((", "a", "IS NULL", "AND", "b", "=", "$1", ")",
              "AND", "a", "=", "$2", ")"]
            (placeholderIndex [("a__eq", Val.vnone), ("b", Val.vint 5),
              ("a", Val.vint 3)] n)
          ∧ (fetchArgs [("a__eq", Val.vnone), ("b", Val.vint 5),
              ("a", Val.vint 3)]).get?
              (placeholderIndex [("a__eq", Val.vnone), ("b", Val.vint 5),
                ("a", Val.vint 3)] n - 1)
            = some (([("a__eq", Val.vnone), ("b", Val.vint 5),
                ("a", Val.vint 3)] : List (String × Val)).get ⟨n, hn⟩).2) :=
  ⟨⟨by decide, rfl⟩,
   C10_placeholder_binding "public.t" [("a", "INTEGER"), ("b", "TEXT")]
     [("a__eq", Val.vnone), ("b", Val.vint 5), ("a", Val.vint 3)]
     ["((", "a", "IS NULL", "AND", "b", "=", "$1", ")",
      "AND", "a", "=", "$2", ")"] (by decide) rfl⟩

end Donphan
